import Mathlib

/-!
Shallow embedding of the session / real-time state synchronization engine of
the interactive-board server (the physics-bearing server variant, the one the
specification adopts as canonical: the file that defines
`MAX_USERS_PER_SESSION`, the ball physics, goals and the board elements).

JS numbers are modelled as real numbers (`ℝ`), timestamps as `ℤ`.
`Math.cos (Math.atan2 dy dx)` and `Math.sin (Math.atan2 dy dx)` are embedded
as `dx / dist` and `dy / dist` where `dist = Real.sqrt (dx*dx + dy*dy)`
(the exact trigonometric identity for `dist ≠ 0`; `Math.atan2 0 0 = 0`, so the
`dist = 0` case yields direction `(1, 0)`).

Mutable server state (the `sessions` and `users` Maps, the per-session objects)
is modelled as an explicit `ServerState` record threaded through every handler;
`socket.emit` / `io.to(...).emit` calls are collected in an emitted-event list.
`setTimeout`/`setInterval` firings are modelled as explicit trace events
(`Event.tick`, `Event.respawn`, `Event.reap`) supplied by the environment, and
the registration of the goal-respawn timeout is recorded as an
`Emit.scheduleRespawn` output.
-/

set_option maxHeartbeats 1000000

/-! ## Constants (from the source) -/

def BALL_RADIUS : ℝ := 20
def CURSOR_RADIUS : ℝ := 15
def BALL_SPEED_LIMIT : ℝ := 15
def FRICTION : ℝ := 0.98
def RESTITUTION : ℝ := 0.8
def CURSOR_REPULSION_FORCE : ℝ := 0.5
def GOAL_WIDTH : ℝ := 100
def GOAL_HEIGHT : ℝ := 150
def MAX_USERS_PER_SESSION : ℕ := 10

/-! ## Data model -/

structure Ball where
  x : ℝ
  y : ℝ
  radius : ℝ
  velocityX : ℝ
  velocityY : ℝ
  lastTouchedBy : Option String
  lastTouchTime : ℤ

structure Goal where
  id : String
  side : String
  x : ℝ
  y : ℝ
  width : ℝ
  height : ℝ

structure User where
  id : String
  username : String
  userType : String
  color : String
  x : ℝ
  y : ℝ
  lastUpdate : ℤ

structure Element where
  id : String
  type : String
  x : ℝ
  y : ℝ
  width : ℝ
  height : ℝ
  color : String
  text : String
  createdBy : String
  createdAt : ℤ
  updatedAt : Option ℤ

structure GameState where
  inPlay : Bool
  lastGoal : Option String
  goalMessage : String

structure Session where
  id : String
  createdAt : ℤ
  lastActivity : ℤ
  users : List User
  elements : List Element
  maxUsers : ℕ
  ball : Ball
  goals : List Goal
  scores : List (String × ℤ)
  gameState : GameState

/-- The whole mutable server state: the `sessions` Map and the `users` Map
(socket id → session id; the stored `user` copy is only used for logging
in the source, so it is not modelled). -/
structure ServerState where
  sessions : List (String × Session)
  assoc : List (String × String)

/-! ## Outbound events (socket.emit / io.to(room).emit) -/

inductive Emit where
  | error (message : String)
  | sessionJoined (users : List User) (elements : List Element) (user : User)
  | userJoined (user : User)
  | userLeft (userId : String)
  | cursorUpdated (userId : String) (x y : ℝ)
  | reconnectRequired (sessionId : String)
  | elementCreated (e : Element)
  | elementUpdated (e : Element)
  | elementDeleted (id : String)
  | goal (goalSide : String) (scoringPlayer : Option String) (message : String)
  | gameResume (ball : Ball)
  | gameStateUpdate (ball : Ball) (scores : List (String × ℤ)) (gameState : GameState)
  | scheduleRespawn (sessionId : String) (delayMs : ℤ)

/-! ## Small JS-semantics helpers -/

/-- `Math.max(0, Math.min(1920, x))`. -/
noncomputable def clampX (x : ℝ) : ℝ := max 0 (min 1920 x)

/-- `Math.max(0, Math.min(1080, y))`. -/
noncomputable def clampY (y : ℝ) : ℝ := max 0 (min 1080 y)

/-- `Map.get` on a map represented as an association list (keys unique). -/
def alookup {α : Type} : List (String × α) → String → Option α
  | [], _ => none
  | (k, v) :: rest, key => if k = key then some v else alookup rest key

/-- In-place mutation of the object stored under an existing key. -/
def aset {α : Type} : List (String × α) → String → α → List (String × α)
  | [], _, _ => []
  | (k, v) :: rest, key, v' =>
    if k = key then (k, v') :: rest else (k, v) :: aset rest key v'

/-- `Map.delete`. -/
def aremove {α : Type} : List (String × α) → String → List (String × α)
  | [], _ => []
  | (k, v) :: rest, key => if k = key then rest else (k, v) :: aremove rest key

/-- `Map.set`: overwrite when the key is present, append otherwise. -/
def aupsert {α : Type} (l : List (String × α)) (key : String) (v : α) :
    List (String × α) :=
  if (alookup l key).isSome then aset l key v else l ++ [(key, v)]

/-- JS `s || dflt` for strings (empty string is falsy). -/
def jsStrOr (o : Option String) (dflt : String) : String :=
  match o with
  | none => dflt
  | some s => if s = "" then dflt else s

/-- JS `v || dflt` for numbers (`undefined` and `0` are falsy; NaN unmodelled). -/
noncomputable def jsNumOr (o : Option ℝ) (dflt : ℝ) : ℝ :=
  match o with
  | none => dflt
  | some v => if v = 0 then dflt else v

/-- JS truthiness of a possibly-missing string (`!id`). -/
def truthyStr : Option String → Bool
  | none => false
  | some s => !(s == "")

/-- `username || 'User ' + socket.id.substring(0, 4)`. -/
def jsUsername (username sock : String) : String :=
  if username = "" then "User " ++ sock.take 4 else username

/-- `session.users.findIndex(u => u.id === id)` viewed as the found user. -/
def findUser : List User → String → Option User
  | [], _ => none
  | u :: rest, uid => if u.id = uid then some u else findUser rest uid

/-- `session.users.splice(existingUserIndex, 1)`: drop the first user with
the given id (no-op when absent). -/
def removeFirstUser : List User → String → List User
  | [], _ => []
  | u :: rest, uid => if u.id = uid then rest else u :: removeFirstUser rest uid

/-- Mutate the first user with the given id (the `findIndex` + assignment
pattern of the source). -/
def mapFirstUser : List User → String → (User → User) → List User
  | [], _, _ => []
  | u :: rest, uid, f =>
    if u.id = uid then f u :: rest else u :: mapFirstUser rest uid f

/-- `session.elements.findIndex(e => e.id === id)` viewed as the found element. -/
def findElem : List Element → String → Option Element
  | [], _ => none
  | e :: rest, eid => if e.id = eid then some e else findElem rest eid

/-- Mutate the first element with the given id. -/
def mapFirstElem : List Element → String → (Element → Element) → List Element
  | [], _, _ => []
  | e :: rest, eid, f =>
    if e.id = eid then f e :: rest else e :: mapFirstElem rest eid f

/-- `scores[p]` with JS `undefined` (missing) read as 0 by the
`if (!scores[p]) scores[p] = 0` guard. -/
def scoreGet : List (String × ℤ) → String → ℤ
  | [], _ => 0
  | (k, v) :: rest, key => if k = key then v else scoreGet rest key

/-- `scores[p] = v` (upsert). -/
def scoreSet : List (String × ℤ) → String → ℤ → List (String × ℤ)
  | [], key, v => [(key, v)]
  | (k, v) :: rest, key, v' =>
    if k = key then (k, v') :: rest else (k, v) :: scoreSet rest key v'

/-! ## Session construction (`POST /api/sessions`) -/

def initialBall : Ball :=
  { x := 960
    y := 540
    radius := BALL_RADIUS
    velocityX := 0
    velocityY := 0
    lastTouchedBy := none
    lastTouchTime := 0 }

noncomputable def leftGoal : Goal :=
  { id := "leftGoal", side := "left", x := 0, y := 540 - GOAL_HEIGHT / 2
    width := GOAL_WIDTH, height := GOAL_HEIGHT }

noncomputable def rightGoal : Goal :=
  { id := "rightGoal", side := "right", x := 1920 - GOAL_WIDTH
    y := 540 - GOAL_HEIGHT / 2, width := GOAL_WIDTH, height := GOAL_HEIGHT }

noncomputable def mkSession (sid : String) (now : ℤ) : Session :=
  { id := sid
    createdAt := now
    lastActivity := now
    users := []
    elements := []
    maxUsers := MAX_USERS_PER_SESSION
    ball := initialBall
    goals := [leftGoal, rightGoal]
    scores := []
    gameState := { inPlay := true, lastGoal := none, goalMessage := "" } }

/-! ## Physics: updateBallPhysics -/

/-- Friction, small-velocity zeroing, speed-limit clamping, position advance
(the first half of `updateBallPhysics`). -/
noncomputable def integrateBall (b : Ball) : Ball :=
  let vx1 := b.velocityX * FRICTION
  let vy1 := b.velocityY * FRICTION
  let vx2 := if |vx1| < 0.1 then 0 else vx1
  let vy2 := if |vy1| < 0.1 then 0 else vy1
  let speed := Real.sqrt (vx2 * vx2 + vy2 * vy2)
  let vx3 := if speed > BALL_SPEED_LIMIT then vx2 * (BALL_SPEED_LIMIT / speed) else vx2
  let vy3 := if speed > BALL_SPEED_LIMIT then vy2 * (BALL_SPEED_LIMIT / speed) else vy2
  { b with x := b.x + vx3, y := b.y + vy3, velocityX := vx3, velocityY := vy3 }

/-- The four edge checks of `updateBallPhysics` (position clamp + reflected
velocity scaled by the restitution factor). -/
noncomputable def bounceWalls (b : Ball) : Ball :=
  let x2 := if b.x - b.radius < 0 then b.radius else b.x
  let vx2 := if b.x - b.radius < 0 then -b.velocityX * RESTITUTION else b.velocityX
  let x3 := if x2 + b.radius > 1920 then 1920 - b.radius else x2
  let vx3 := if x2 + b.radius > 1920 then -vx2 * RESTITUTION else vx2
  let y2 := if b.y - b.radius < 0 then b.radius else b.y
  let vy2 := if b.y - b.radius < 0 then -b.velocityY * RESTITUTION else b.velocityY
  let y3 := if y2 + b.radius > 1080 then 1080 - b.radius else y2
  let vy3 := if y2 + b.radius > 1080 then -vy2 * RESTITUTION else vy2
  { b with x := x3, y := y3, velocityX := vx3, velocityY := vy3 }

noncomputable def updateBallPhysics (s : Session) : Session :=
  { s with ball := bounceWalls (integrateBall s.ball) }

/-! ## Physics: checkBallCursorCollisions -/

/-- One iteration of the ball/cursor collision loop. -/
noncomputable def collideBallCursor (now : ℤ) (b : Ball) (u : User) : Ball :=
  if u.userType = "display" then b
  else
    let dx := b.x - u.x
    let dy := b.y - u.y
    let distance := Real.sqrt (dx * dx + dy * dy)
    if distance < b.radius + CURSOR_RADIUS then
      let overlap := (b.radius + CURSOR_RADIUS) - distance
      let force := min (overlap * 0.05) 1.5
      let cosA := if distance = 0 then 1 else dx / distance
      let sinA := if distance = 0 then 0 else dy / distance
      { b with
        lastTouchedBy := some u.id
        lastTouchTime := now
        velocityX := cosA * force * BALL_SPEED_LIMIT
        velocityY := sinA * force * BALL_SPEED_LIMIT }
    else b

noncomputable def checkBallCursorCollisions (s : Session) (now : ℤ) : Session :=
  { s with ball := s.users.foldl (collideBallCursor now) s.ball }

/-! ## Physics: checkCursorCollisions -/

/-- Pairwise repulsion contribution of `user2` on `user1`. -/
noncomputable def repulsionOffset (u1 u2 : User) : ℝ × ℝ :=
  let dx := u1.x - u2.x
  let dy := u1.y - u2.y
  let distance := Real.sqrt (dx * dx + dy * dy)
  if distance < CURSOR_RADIUS * 2 then
    let force := CURSOR_REPULSION_FORCE * (1 - distance / (CURSOR_RADIUS * 2))
    let cosA := if distance = 0 then 1 else dx / distance
    let sinA := if distance = 0 then 0 else dy / distance
    (cosA * force, sinA * force)
  else (0, 0)

/-- Inner loop of `checkCursorCollisions`: the accumulated offset for the
user at index `i` (skipping itself and `display` users). -/
noncomputable def cursorOffset (users : List User) (i : ℕ) (u1 : User) : ℝ × ℝ :=
  users.enum.foldl
    (fun acc ju2 =>
      if ju2.1 = i then acc
      else if ju2.2.userType = "display" then acc
      else
        let o := repulsionOffset u1 ju2.2
        (acc.1 + o.1, acc.2 + o.2))
    (0, 0)

/-- Outer loop of `checkCursorCollisions`: the `newPositions` map, in
insertion order, already clamped to the canvas. -/
noncomputable def newPositions (users : List User) : List (String × ℝ × ℝ) :=
  users.enum.foldl
    (fun acc iu =>
      if iu.2.userType = "display" then acc
      else
        let o := cursorOffset users iu.1 iu.2
        if o.1 ≠ 0 ∨ o.2 ≠ 0 then
          acc ++ [(iu.2.id, clampX (iu.2.x + o.1), clampY (iu.2.y + o.2))]
        else acc)
    []

/-- Application loop of `checkCursorCollisions`: find each recorded user and
overwrite its position, emitting a `cursor-updated` event. -/
noncomputable def applyNewPositions (users : List User)
    (ps : List (String × ℝ × ℝ)) : List User × List Emit :=
  ps.foldl
    (fun acc p =>
      if (findUser acc.1 p.1).isSome then
        (mapFirstUser acc.1 p.1 (fun u => { u with x := p.2.1, y := p.2.2 }),
         acc.2 ++ [Emit.cursorUpdated p.1 p.2.1 p.2.2])
      else acc)
    (users, [])

noncomputable def checkCursorCollisions (s : Session) : Session × List Emit :=
  let r := applyNewPositions s.users (newPositions s.users)
  ({ s with users := r.1 }, r.2)

/-! ## Physics: checkGoalCollisions -/

/-- The goal-rectangle overlap test of the source, on the first matching goal
(the loop `break`s after the first hit). -/
noncomputable def firstHitGoal (b : Ball) : List Goal → Option Goal
  | [] => none
  | g :: rest =>
    if b.x - b.radius < g.x + g.width ∧ b.x + b.radius > g.x ∧
        b.y - b.radius < g.y + g.height ∧ b.y + b.radius > g.y
    then some g
    else firstHitGoal b rest

def sideWordRu (side : String) : String :=
  if side = "left" then "левые" else "правые"

/-- NOTE the source never consults `gameState.inPlay` here: a goal is handled
whenever the ball overlaps a goal rectangle, even during the goal pause. -/
noncomputable def checkGoalCollisions (s : Session) : Session × List Emit :=
  match firstHitGoal s.ball s.goals with
  | none => (s, [])
  | some g =>
    match s.ball.lastTouchedBy with
    | some scorer =>
      let scores' := scoreSet s.scores scorer (scoreGet s.scores scorer + 1)
      let playerName :=
        match findUser s.users scorer with
        | some player => player.username
        | none => "Unknown Player"
      let msg := playerName ++ " забил гол в " ++ sideWordRu g.side ++ " ворота!"
      let gs := { inPlay := false, lastGoal := some g.side, goalMessage := msg :
        GameState }
      ({ s with scores := scores', gameState := gs },
       [Emit.goal g.side (some scorer) msg, Emit.scheduleRespawn s.id 2000])
    | none =>
      let msg := "Гол в " ++ sideWordRu g.side ++ " ворота!"
      let gs := { inPlay := false, lastGoal := some g.side, goalMessage := msg :
        GameState }
      ({ s with gameState := gs },
       [Emit.goal g.side none msg, Emit.scheduleRespawn s.id 2000])

/-! ## The per-session tick (`startGameLoop` interval body) -/

noncomputable def tickSession (s : Session) (now : ℤ) : Session × List Emit :=
  let s1 := updateBallPhysics s
  let s2 := checkBallCursorCollisions s1 now
  let r3 := checkCursorCollisions s2
  let r4 := checkGoalCollisions r3.1
  (r4.1, r3.2 ++ r4.2 ++
    [Emit.gameStateUpdate r4.1.ball r4.1.scores r4.1.gameState])

/-- One firing of the game interval: if the session was removed the interval
self-cancels (no-op); otherwise run the physics tick and store the mutated
session. -/
noncomputable def stepTick (st : ServerState) (sid : String) (now : ℤ) :
    ServerState × List Emit :=
  match alookup st.sessions sid with
  | none => (st, [])
  | some s =>
    let r := tickSession s now
    ({ st with sessions := aset st.sessions sid r.1 }, r.2)

/-! ## Socket handlers -/

/-- The fixed 10-color palette of the join handler. -/
def joinColors : List String :=
  ["#FF5252", "#4CAF50", "#2196F3", "#FFC107", "#9C27B0",
   "#00BCD4", "#FF9800", "#673AB7", "#795548", "#009688"]

/-- `join-session`. `rand` is the value drawn from `Math.random()` for the
color pick (`colors[Math.floor(Math.random() * colors.length)]`).
There is no capacity check in this variant of the handler. -/
noncomputable def joinSession (st : ServerState)
    (sock sid username userType : String) (rand : ℝ) (now : ℤ) :
    ServerState × List Emit :=
  match alookup st.sessions sid with
  | none => (st, [Emit.error "Session not found"])
  | some session =>
    let users1 := removeFirstUser session.users sock
    let color := joinColors.getD (Nat.floor (rand * (joinColors.length : ℝ))) ""
    let user : User :=
      { id := sock
        username := jsUsername username sock
        userType := userType
        color := color
        x := 960
        y := 540
        lastUpdate := now }
    let session' := { session with users := users1 ++ [user] }
    ({ sessions := aset st.sessions sid session'
       assoc := aupsert st.assoc sock sid },
     [Emit.sessionJoined session'.users session'.elements user,
      Emit.userJoined user])

/-- `cursor-update`. `ox`/`oy` are `none` when `typeof x !== 'number'`
(resp. `y`). The `gyroData` payload is stored on the user object in the
source but never read by any server logic, so it is not modelled. -/
noncomputable def cursorUpdate (st : ServerState) (sock : String)
    (ox oy : Option ℝ) (now : ℤ) : ServerState × List Emit :=
  match alookup st.assoc sock with
  | none => (st, [])
  | some sid =>
    match alookup st.sessions sid with
    | none => (st, [])
    | some session =>
      match ox, oy with
      | some x, some y =>
        match findUser session.users sock with
        | some u =>
          let sanitizedX := clampX x
          let sanitizedY := clampY y
          if |sanitizedX - u.x| > 1 ∨ |sanitizedY - u.y| > 1 then
            let users' := mapFirstUser session.users sock
              (fun w => { w with x := sanitizedX, y := sanitizedY, lastUpdate := now })
            let session' := { session with users := users', lastActivity := now }
            ({ st with sessions := aset st.sessions sid session' },
             [Emit.cursorUpdated sock sanitizedX sanitizedY])
          else
            let session' := { session with lastActivity := now }
            ({ st with sessions := aset st.sessions sid session' }, [])
        | none =>
          let session' := { session with lastActivity := now }
          ({ st with sessions := aset st.sessions sid session' },
           [Emit.reconnectRequired sid])
      | _, _ => (st, [])

/-- Payload of `create-element`: `none` marks a missing field
(for `x`/`y`: a non-numeric field). -/
structure CreateData where
  type : Option String
  x : Option ℝ
  y : Option ℝ
  width : Option ℝ
  height : Option ℝ
  color : Option String
  text : Option String

/-- `create-element`. -/
noncomputable def createElement (st : ServerState) (sock : String)
    (d : CreateData) (uuid : String) (now : ℤ) : ServerState × List Emit :=
  match alookup st.assoc sock with
  | none => (st, [])
  | some sid =>
    match alookup st.sessions sid with
    | none => (st, [])
    | some session =>
      match d.type, d.x, d.y with
      | some t, some xv, some yv =>
        if t = "" then (st, [])
        else
          let newElement : Element :=
            { id := uuid
              type := t
              x := clampX xv
              y := clampY yv
              width := jsNumOr d.width 100
              height := jsNumOr d.height 100
              color := jsStrOr d.color "#ffffff"
              text := jsStrOr d.text ""
              createdBy := sock
              createdAt := now
              updatedAt := none }
          let session' := { session with
            elements := session.elements ++ [newElement]
            lastActivity := now }
          ({ st with sessions := aset st.sessions sid session' },
           [Emit.elementCreated newElement])
      | _, _, _ => (st, [])

/-- Payload of `update-element` (the fields the spread can meaningfully merge
over a stored element; `id` is split off before the spread in the source).
`x`/`y` here are `none` (absent) or numeric. Unlike `cursor-update` and
`create-element`, the source performs NO `typeof` check on these fields, so a
present non-numeric `x`/`y` is coerced by `Math.min`/`Math.max` to `NaN` and
stored — a case this real-valued payload type cannot represent; it is
modelled separately by the `JsNum` model below, and it is a genuine bounds
violation. -/
structure UpdateData where
  id : Option String
  type : Option String
  x : Option ℝ
  y : Option ℝ
  width : Option ℝ
  height : Option ℝ
  color : Option String
  text : Option String

/-- `{...element, ...updateData, x: clamped, y: clamped, updatedAt: now}`.
Faithful for absent-or-numeric `x`/`y` payloads; the source's `NaN` coercion
of a present non-numeric coordinate (no `typeof` check in this handler) is
modelled by the `JsNum` model below. -/
noncomputable def mergeElement (e : Element) (d : UpdateData) (now : ℤ) : Element :=
  { e with
    type := d.type.getD e.type
    x := match d.x with | some vx => clampX vx | none => e.x
    y := match d.y with | some vy => clampY vy | none => e.y
    width := d.width.getD e.width
    height := d.height.getD e.height
    color := d.color.getD e.color
    text := d.text.getD e.text
    updatedAt := some now }

/-- `update-element`. -/
noncomputable def updateElement (st : ServerState) (sock : String)
    (d : UpdateData) (now : ℤ) : ServerState × List Emit :=
  match alookup st.assoc sock with
  | none => (st, [])
  | some sid =>
    match alookup st.sessions sid with
    | none => (st, [])
    | some session =>
      if truthyStr d.id then
        let eid := d.id.getD ""
        match findElem session.elements eid with
        | none => (st, [])
        | some e =>
          let updatedElement := mergeElement e d now
          let session' := { session with
            elements := mapFirstElem session.elements eid (fun _ => updatedElement)
            lastActivity := now }
          ({ st with sessions := aset st.sessions sid session' },
           [Emit.elementUpdated updatedElement])
      else (st, [])

/-- `delete-element`. The broadcast is emitted unconditionally after the
filter, also when no stored element matched the id. -/
noncomputable def deleteElement (st : ServerState) (sock : String)
    (oid : Option String) (now : ℤ) : ServerState × List Emit :=
  match alookup st.assoc sock with
  | none => (st, [])
  | some sid =>
    match alookup st.sessions sid with
    | none => (st, [])
    | some session =>
      if truthyStr oid then
        let eid := oid.getD ""
        let session' := { session with
          elements := session.elements.filter (fun e => e.id != eid)
          lastActivity := now }
        ({ st with sessions := aset st.sessions sid session' },
         [Emit.elementDeleted eid])
      else (st, [])

/-- `disconnect`. -/
noncomputable def disconnectSocket (st : ServerState) (sock : String)
    (now : ℤ) : ServerState × List Emit :=
  match alookup st.assoc sock with
  | none => (st, [])
  | some sid =>
    match alookup st.sessions sid with
    | some session =>
      let session' := { session with
        users := session.users.filter (fun u => u.id != sock)
        lastActivity := now }
      ({ sessions := aset st.sessions sid session'
         assoc := aremove st.assoc sock },
       [Emit.userLeft sock])
    | none => ({ st with assoc := aremove st.assoc sock }, [])

/-- The goal-respawn `setTimeout` body: guarded by `sessions.has(session.id)`,
then reset the ball to the center with zero velocity, clear `lastTouchedBy`,
resume play and broadcast `game-resume`. -/
noncomputable def respawnFires (st : ServerState) (sid : String) :
    ServerState × List Emit :=
  match alookup st.sessions sid with
  | none => (st, [])
  | some session =>
    let ball' := { session.ball with
      x := 960, y := 540, velocityX := 0, velocityY := 0, lastTouchedBy := none }
    let gs' := { session.gameState with inPlay := true, goalMessage := "" }
    let session' := { session with ball := ball', gameState := gs' }
    ({ st with sessions := aset st.sessions sid session' },
     [Emit.gameResume ball'])

/-- The hourly cleanup sweep: drop sessions idle for more than 24 hours. -/
def reapSessions (st : ServerState) (now : ℤ) : ServerState :=
  { st with sessions :=
      (st.sessions.filter
        (fun p => decide (¬ (now - p.2.lastActivity > 24 * 60 * 60 * 1000)))) }

/-! ## The event-step machine -/

inductive Event where
  | createSession (sid : String) (now : ℤ)
  | join (sock sid username userType : String) (rand : ℝ) (now : ℤ)
  | cursor (sock : String) (ox oy : Option ℝ) (now : ℤ)
  | createEl (sock : String) (d : CreateData) (uuid : String) (now : ℤ)
  | updateEl (sock : String) (d : UpdateData) (now : ℤ)
  | deleteEl (sock : String) (oid : Option String) (now : ℤ)
  | disconnect (sock : String) (now : ℤ)
  | tick (sid : String) (now : ℤ)
  | respawn (sid : String)
  | reap (now : ℤ)

noncomputable def step (st : ServerState) : Event → ServerState × List Emit
  | .createSession sid now =>
    ({ st with sessions := aupsert st.sessions sid (mkSession sid now) }, [])
  | .join sock sid username userType rand now =>
    joinSession st sock sid username userType rand now
  | .cursor sock ox oy now => cursorUpdate st sock ox oy now
  | .createEl sock d uuid now => createElement st sock d uuid now
  | .updateEl sock d now => updateElement st sock d now
  | .deleteEl sock oid now => deleteElement st sock oid now
  | .disconnect sock now => disconnectSocket st sock now
  | .tick sid now => stepTick st sid now
  | .respawn sid => respawnFires st sid
  | .reap now => (reapSessions st now, [])

noncomputable def applyEvent (st : ServerState) (e : Event) : ServerState :=
  (step st e).1

noncomputable def stepEmits (st : ServerState) (e : Event) : List Emit :=
  (step st e).2

def initState : ServerState := { sessions := [], assoc := [] }

/-- The state reached by processing a trace of events from process start. -/
noncomputable def reach (events : List Event) : ServerState :=
  events.foldl applyEvent initState

/-! ## General lemmas about the association-list helpers -/

theorem alookup_aset_self {α : Type} (l : List (String × α)) (k : String)
    (v w : α) (h : alookup l k = some w) :
    alookup (aset l k v) k = some v := by
  induction l with
  | nil => simp [alookup] at h
  | cons p rest ih =>
    obtain ⟨k1, v1⟩ := p
    by_cases hk : k1 = k
    · simp [alookup, aset, hk]
    · simp [alookup, aset, hk] at h ⊢
      exact ih h

theorem alookup_mem {α : Type} (l : List (String × α)) (k : String) (v : α)
    (h : alookup l k = some v) : (k, v) ∈ l := by
  induction l with
  | nil => simp [alookup] at h
  | cons p rest ih =>
    obtain ⟨k1, v1⟩ := p
    by_cases hk : k1 = k
    · subst hk
      simp [alookup] at h
      simp [h]
    · simp [alookup, hk] at h
      exact List.mem_cons_of_mem _ (ih h)

theorem aset_forall {α : Type} (P : String × α → Prop) (l : List (String × α))
    (k : String) (v : α) (hl : ∀ p ∈ l, P p) (hv : ∀ k', P (k', v)) :
    ∀ p ∈ aset l k v, P p := by
  induction l with
  | nil => simp [aset]
  | cons q rest ih =>
    obtain ⟨k1, v1⟩ := q
    intro p hp
    by_cases hk : k1 = k
    · simp [aset, hk] at hp
      rcases hp with hp | hp
      · rw [hp]; exact hv _
      · exact hl p (List.mem_cons_of_mem _ hp)
    · simp [aset, hk] at hp
      rcases hp with hp | hp
      · rw [hp]; exact hl _ (by simp)
      · exact ih (fun q hq => hl q (List.mem_cons_of_mem _ hq)) p hp

theorem aupsert_forall {α : Type} (P : String × α → Prop) (l : List (String × α))
    (k : String) (v : α) (hl : ∀ p ∈ l, P p) (hv : ∀ k', P (k', v)) :
    ∀ p ∈ aupsert l k v, P p := by
  unfold aupsert
  by_cases h : (alookup l k).isSome
  · simp only [h, if_true]
    exact aset_forall P l k v hl hv
  · simp only [h, if_false]
    intro p hp
    rcases List.mem_append.mp hp with hp | hp
    · exact hl p hp
    · simp at hp; rw [hp]; exact hv k

/-! ## Clamping lemmas -/

theorem clampX_nonneg (x : ℝ) : 0 ≤ clampX x := le_max_left 0 _

theorem clampX_le (x : ℝ) : clampX x ≤ 1920 :=
  max_le (by norm_num) (min_le_left _ _)

theorem clampY_nonneg (y : ℝ) : 0 ≤ clampY y := le_max_left 0 _

theorem clampY_le (y : ℝ) : clampY y ≤ 1080 :=
  max_le (by norm_num) (min_le_left _ _)

theorem clampX_of_bounds (x : ℝ) (h0 : 0 ≤ x) (h1 : x ≤ 1920) : clampX x = x := by
  unfold clampX
  rw [min_eq_right h1, max_eq_right h0]

theorem clampY_of_bounds (y : ℝ) (h0 : 0 ≤ y) (h1 : y ≤ 1080) : clampY y = y := by
  unfold clampY
  rw [min_eq_right h1, max_eq_right h0]

/-! ## C9: stale identity on cursor-update -/

/-- C9: a `cursor-update` from a socket that has a socket→session association
and whose session exists, with numeric coordinates, but whose id is not in the
session's roster, is answered with the distinct `reconnect-required` signal
(carrying the session id) — not with a generic `error` event and not silently —
and the roster and elements are left unchanged. -/
theorem c9_stale_identity (st : ServerState) (sock sid : String) (sess : Session)
    (x y : ℝ) (now : ℤ)
    (hassoc : alookup st.assoc sock = some sid)
    (hsess : alookup st.sessions sid = some sess)
    (hstale : findUser sess.users sock = none) :
    stepEmits st (Event.cursor sock (some x) (some y) now) =
      [Emit.reconnectRequired sid] ∧
    (∀ m, Emit.error m ∉ stepEmits st (Event.cursor sock (some x) (some y) now)) ∧
    ∃ sess',
      alookup (applyEvent st (Event.cursor sock (some x) (some y) now)).sessions
        sid = some sess' ∧
      sess'.users = sess.users ∧ sess'.elements = sess.elements := by
  have hmain :
      step st (Event.cursor sock (some x) (some y) now) =
        (ServerState.mk
          (aset st.sessions sid { sess with lastActivity := now }) st.assoc,
         [Emit.reconnectRequired sid]) := by
    simp [step, cursorUpdate, hassoc, hsess, hstale]
  refine ⟨by simp [stepEmits, hmain], by simp [stepEmits, hmain], ?_⟩
  refine ⟨{ sess with lastActivity := now }, ?_, rfl, rfl⟩
  simp only [applyEvent, hmain]
  exact alookup_aset_self st.sessions sid _ sess hsess

/-! ## C8: goal pause is followed by a centered respawn -/

/-- C8: whenever `checkGoalCollisions` handles a goal it schedules the fixed
2000 ms respawn timeout for its session, and when that timeout fires while the
room still exists in the registry, the session transitions back to
`inPlay = true` with the ball exactly at the canvas center `(960, 540)`, zero
velocity and `lastTouchedBy` cleared, and exactly one `game-resume` event
carrying the reset ball is broadcast. -/
theorem c8_goal_respawn (st : ServerState) (sid : String) (sess : Session)
    (hsess : alookup st.sessions sid = some sess) :
    (∀ (s2 : Session) (g : Goal), firstHitGoal s2.ball s2.goals = some g →
      Emit.scheduleRespawn s2.id 2000 ∈ (checkGoalCollisions s2).2) ∧
    stepEmits st (Event.respawn sid) =
      [Emit.gameResume { sess.ball with
        x := 960, y := 540, velocityX := 0, velocityY := 0,
        lastTouchedBy := none }] ∧
    ∃ sess',
      alookup (applyEvent st (Event.respawn sid)).sessions sid = some sess' ∧
      sess'.ball.x = 960 ∧ sess'.ball.y = 540 ∧
      sess'.ball.velocityX = 0 ∧ sess'.ball.velocityY = 0 ∧
      sess'.ball.lastTouchedBy = none ∧
      sess'.gameState.inPlay = true ∧ sess'.gameState.goalMessage = "" := by
  have hsched : ∀ (s2 : Session) (g : Goal),
      firstHitGoal s2.ball s2.goals = some g →
      Emit.scheduleRespawn s2.id 2000 ∈ (checkGoalCollisions s2).2 := by
    intro s2 g hg
    unfold checkGoalCollisions
    rw [hg]
    cases s2.ball.lastTouchedBy <;> simp
  have hmain :
      step st (Event.respawn sid) =
        (ServerState.mk
          (aset st.sessions sid
            { sess with
              ball := { sess.ball with
                x := 960, y := 540, velocityX := 0, velocityY := 0,
                lastTouchedBy := none }
              gameState := { sess.gameState with
                inPlay := true, goalMessage := "" } })
          st.assoc,
         [Emit.gameResume { sess.ball with
            x := 960, y := 540, velocityX := 0, velocityY := 0,
            lastTouchedBy := none }]) := by
    simp [step, respawnFires, hsess]
  refine ⟨hsched, by simp [stepEmits, hmain], ?_⟩
  refine ⟨{ sess with
      ball := { sess.ball with
        x := 960, y := 540, velocityX := 0, velocityY := 0,
        lastTouchedBy := none }
      gameState := { sess.gameState with
        inPlay := true, goalMessage := "" } },
    ?_, rfl, rfl, rfl, rfl, rfl, rfl, rfl⟩
  simp only [applyEvent, hmain]
  exact alookup_aset_self st.sessions sid _ sess hsess

/-! ## C4 (amended): delete-element with an unknown id -/

/-- C4 (amended): a `delete-element` event whose id matches no stored element
produces no error and leaves the element store (and roster) unchanged, but the
handler still broadcasts `element-deleted` with the requested id — the
broadcast is unconditional, not restricted to successful mutations. -/
theorem c4_amended (st : ServerState) (sock sid eid : String) (sess : Session)
    (now : ℤ)
    (hassoc : alookup st.assoc sock = some sid)
    (hsess : alookup st.sessions sid = some sess)
    (hid : eid ≠ "")
    (habsent : ∀ e ∈ sess.elements, e.id ≠ eid) :
    stepEmits st (Event.deleteEl sock (some eid) now) =
      [Emit.elementDeleted eid] ∧
    (∀ m, Emit.error m ∉ stepEmits st (Event.deleteEl sock (some eid) now)) ∧
    ∃ sess',
      alookup (applyEvent st (Event.deleteEl sock (some eid) now)).sessions sid
        = some sess' ∧
      sess'.elements = sess.elements ∧ sess'.users = sess.users := by
  have hfilter : sess.elements.filter (fun e => e.id != eid) = sess.elements :=
    List.filter_eq_self.mpr (fun e he => by
      simpa [bne_iff_ne] using habsent e he)
  have hmain :
      step st (Event.deleteEl sock (some eid) now) =
        (ServerState.mk
          (aset st.sessions sid
            { sess with
              elements := sess.elements.filter (fun e => e.id != eid)
              lastActivity := now })
          st.assoc,
         [Emit.elementDeleted eid]) := by
    simp [step, deleteElement, hassoc, hsess, truthyStr, hid]
  refine ⟨by simp [stepEmits, hmain], by simp [stepEmits, hmain], ?_⟩
  refine ⟨{ sess with
      elements := sess.elements.filter (fun e => e.id != eid)
      lastActivity := now }, ?_, hfilter, rfl⟩
  simp only [applyEvent, hmain]
  exact alookup_aset_self st.sessions sid _ sess hsess

/-! ## C7 (amended): create-element validation, clamping and defaulting -/

/-- C7 (amended): `create-element` silently rejects (no stored element, no
broadcast) when the kind is missing or empty or `x`/`y` is not numeric;
otherwise it appends an element whose id is the freshly drawn uuid, whose `x`
and `y` are clamped into the canvas bounds (so input `x = 5000` is stored as
`1920`, not an error), whose width/height default to 100 when missing or `0`
but are stored unclamped otherwise, whose color/text default to
`"#ffffff"`/`""`, stamped with `createdBy` and `createdAt` — and broadcasts it. -/
theorem c7_amended (st : ServerState) (sock sid : String) (sess : Session)
    (t : String) (xv yv : ℝ) (ow oh : Option ℝ) (oc ot : Option String)
    (uuid : String) (now : ℤ)
    (hassoc : alookup st.assoc sock = some sid)
    (hsess : alookup st.sessions sid = some sess)
    (ht : t ≠ "") :
    stepEmits st (Event.createEl sock
        ⟨some t, some xv, some yv, ow, oh, oc, ot⟩ uuid now) =
      [Emit.elementCreated
        { id := uuid, type := t, x := clampX xv, y := clampY yv,
          width := jsNumOr ow 100, height := jsNumOr oh 100,
          color := jsStrOr oc "#ffffff", text := jsStrOr ot "",
          createdBy := sock, createdAt := now, updatedAt := none }] ∧
    (∃ sess',
      alookup (applyEvent st (Event.createEl sock
          ⟨some t, some xv, some yv, ow, oh, oc, ot⟩ uuid now)).sessions sid
        = some sess' ∧
      sess'.elements = sess.elements ++
        [{ id := uuid, type := t, x := clampX xv, y := clampY yv,
           width := jsNumOr ow 100, height := jsNumOr oh 100,
           color := jsStrOr oc "#ffffff", text := jsStrOr ot "",
           createdBy := sock, createdAt := now, updatedAt := none }]) ∧
    (0 ≤ clampX xv ∧ clampX xv ≤ 1920 ∧ 0 ≤ clampY yv ∧ clampY yv ≤ 1080) ∧
    (∀ d : CreateData,
      d.type = none ∨ d.type = some "" ∨ d.x = none ∨ d.y = none →
      applyEvent st (Event.createEl sock d uuid now) = st ∧
      stepEmits st (Event.createEl sock d uuid now) = []) := by
  have hmain :
      step st (Event.createEl sock
          ⟨some t, some xv, some yv, ow, oh, oc, ot⟩ uuid now) =
        (ServerState.mk
          (aset st.sessions sid
            { sess with
              elements := sess.elements ++
                [{ id := uuid, type := t, x := clampX xv, y := clampY yv,
                   width := jsNumOr ow 100, height := jsNumOr oh 100,
                   color := jsStrOr oc "#ffffff", text := jsStrOr ot "",
                   createdBy := sock, createdAt := now, updatedAt := none }]
              lastActivity := now })
          st.assoc,
         [Emit.elementCreated
           { id := uuid, type := t, x := clampX xv, y := clampY yv,
             width := jsNumOr ow 100, height := jsNumOr oh 100,
             color := jsStrOr oc "#ffffff", text := jsStrOr ot "",
             createdBy := sock, createdAt := now, updatedAt := none }]) := by
    simp [step, createElement, hassoc, hsess, ht]
  refine ⟨by simp [stepEmits, hmain], ?_, ?_, ?_⟩
  · refine ⟨{ sess with
        elements := sess.elements ++
          [{ id := uuid, type := t, x := clampX xv, y := clampY yv,
             width := jsNumOr ow 100, height := jsNumOr oh 100,
             color := jsStrOr oc "#ffffff", text := jsStrOr ot "",
             createdBy := sock, createdAt := now, updatedAt := none }]
        lastActivity := now }, ?_, rfl⟩
    simp only [applyEvent, hmain]
    exact alookup_aset_self st.sessions sid _ sess hsess
  · exact ⟨clampX_nonneg xv, clampX_le xv, clampY_nonneg yv, clampY_le yv⟩
  · intro d hrej
    obtain ⟨dt, dx, dy, dw, dh, dc, dtx⟩ := d
    cases dt with
    | none =>
      cases dx <;> cases dy <;>
        simp [applyEvent, stepEmits, step, createElement, hassoc, hsess]
    | some t' =>
      cases dx with
      | none =>
        cases dy <;>
          simp [applyEvent, stepEmits, step, createElement, hassoc, hsess]
      | some xv' =>
        cases dy with
        | none =>
          simp [applyEvent, stepEmits, step, createElement, hassoc, hsess]
        | some yv' =>
          have ht' : t' = "" := by
            rcases hrej with h | h | h | h
            · exact absurd h (by simp)
            · simpa using h
            · exact absurd h (by simp)
            · exact absurd h (by simp)
          subst ht'
          simp [applyEvent, stepEmits, step, createElement, hassoc, hsess]

/-! ## C5 (amended): the join color is a uniform random palette pick -/

/-- C5 (amended): the color assigned on a successful join is
`colors[Math.floor(rand * colors.length)]` for the `Math.random()` draw `rand`
of that join — it depends only on the random draw, not on the join order: two
successful joins with the same draw receive the same color regardless of the
current roster sizes, and for any draw in `[0, 1)` the color is an entry of the
fixed 10-color palette. -/
theorem c5_amended (st₁ st₂ : ServerState)
    (sock₁ sock₂ sid₁ sid₂ un₁ un₂ ut₁ ut₂ : String)
    (rand : ℝ) (now₁ now₂ : ℤ) (s₁ s₂ : Session) (u₁ u₂ : User)
    (h₁ : alookup st₁.sessions sid₁ = some s₁)
    (h₂ : alookup st₂.sessions sid₂ = some s₂)
    (hm₁ : Emit.userJoined u₁ ∈
      stepEmits st₁ (Event.join sock₁ sid₁ un₁ ut₁ rand now₁))
    (hm₂ : Emit.userJoined u₂ ∈
      stepEmits st₂ (Event.join sock₂ sid₂ un₂ ut₂ rand now₂)) :
    u₁.color = u₂.color ∧
    (0 ≤ rand → rand < 1 → u₁.color ∈ joinColors) := by
  simp [stepEmits, step, joinSession, h₁] at hm₁
  simp [stepEmits, step, joinSession, h₂] at hm₂
  have hc₁ : u₁.color =
      joinColors.getD (Nat.floor (rand * (joinColors.length : ℝ))) "" := by
    rw [hm₁]; simp [List.getD]
  have hc₂ : u₂.color =
      joinColors.getD (Nat.floor (rand * (joinColors.length : ℝ))) "" := by
    rw [hm₂]; simp [List.getD]
  refine ⟨hc₁.trans hc₂.symm, fun h0 h1 => ?_⟩
  rw [hc₁]
  have hlen : (joinColors.length : ℝ) = 10 := by norm_num [joinColors]
  have hlenN : joinColors.length = 10 := by norm_num [joinColors]
  have hlt : Nat.floor (rand * (joinColors.length : ℝ)) < joinColors.length := by
    rw [hlen, hlenN]
    have h0' : (0 : ℝ) ≤ rand * 10 := mul_nonneg h0 (by norm_num)
    exact (Nat.floor_lt h0').mpr (by push_cast; nlinarith)
  rw [List.getD_eq_getElem joinColors "" hlt]
  exact List.getElem_mem hlt

/-! ## Concrete state used by the witnesses -/

noncomputable def wSession : Session := mkSession "s" 0

noncomputable def wServer : ServerState :=
  { sessions := [("s", wSession)], assoc := [("a", "s")] }

theorem wServer_assoc : alookup wServer.assoc "a" = some "s" := by
  simp [wServer, alookup]

theorem wServer_sess : alookup wServer.sessions "s" = some wSession := by
  simp [wServer, alookup]

/-- Witness for C9 at a concrete input. -/
theorem c9_stale_identity_witness :
    stepEmits wServer (Event.cursor "a" (some 5) (some 6) 1) =
      [Emit.reconnectRequired "s"] :=
  (c9_stale_identity wServer "a" "s" wSession 5 6 1 wServer_assoc wServer_sess
    (by simp [wSession, mkSession, findUser])).1

/-- Witness for C8 at a concrete input. -/
theorem c8_goal_respawn_witness :
    stepEmits wServer (Event.respawn "s") =
      [Emit.gameResume { wSession.ball with
        x := 960, y := 540, velocityX := 0, velocityY := 0,
        lastTouchedBy := none }] :=
  (c8_goal_respawn wServer "s" wSession wServer_sess).2.1

/-- Witness for C4 (amended) at a concrete input. -/
theorem c4_amended_witness :
    stepEmits wServer (Event.deleteEl "a" (some "nope") 1) =
      [Emit.elementDeleted "nope"] :=
  (c4_amended wServer "a" "s" "nope" wSession 1 wServer_assoc wServer_sess
    (by simp) (by simp [wSession, mkSession])).1

/-- Witness for C7 (amended) at a concrete input. -/
theorem c7_amended_witness :
    stepEmits wServer (Event.createEl "a"
        ⟨some "rect", some 5000, some 540, some 5000, none, none, none⟩
        "e1" 1) =
      [Emit.elementCreated
        { id := "e1", type := "rect", x := clampX 5000, y := clampY 540,
          width := jsNumOr (some 5000) 100, height := jsNumOr none 100,
          color := jsStrOr none "#ffffff", text := jsStrOr none "",
          createdBy := "a", createdAt := 1, updatedAt := none }] :=
  (c7_amended wServer "a" "s" wSession "rect" 5000 540 (some 5000) none none
    none "e1" 1 wServer_assoc wServer_sess (by simp)).1

noncomputable def c5WitnessUser : User :=
  { id := "b", username := jsUsername "bob" "b", userType := "controller"
    color := joinColors.getD (Nat.floor ((0 : ℝ) * (joinColors.length : ℝ))) ""
    x := 960, y := 540, lastUpdate := 1 }

/-- Witness for C5 (amended) at a concrete input. -/
theorem c5_amended_witness : c5WitnessUser.color ∈ joinColors :=
  (c5_amended wServer wServer "b" "b" "s" "s" "bob" "bob" "controller"
    "controller" 0 1 1 wSession wSession c5WitnessUser c5WitnessUser
    wServer_sess wServer_sess
    (by simp [stepEmits, step, joinSession, wServer_sess, c5WitnessUser, List.getD])
    (by simp [stepEmits, step, joinSession, wServer_sess, c5WitnessUser, List.getD])).2
    (le_refl 0) (by norm_num)

/-! ## C4 counterexample trace: delete-element for an unknown id broadcasts -/

noncomputable def c4Events : List Event :=
  [Event.createSession "s" 0,
   Event.join "a" "s" "ua" "controller" 0 1]

/-- C4 counterexample: after creating a session and joining one controller
(element store empty), a `delete-element` for the unmatched id `"nope"` emits
the `element-deleted` broadcast — refuting the claim that no broadcast is
emitted when the id does not match any stored element. -/
theorem c4_counterexample :
    stepEmits (reach c4Events) (Event.deleteEl "a" (some "nope") 2) =
      [Emit.elementDeleted "nope"] ∧
    stepEmits (reach c4Events) (Event.deleteEl "a" (some "nope") 2) ≠ [] ∧
    (alookup (reach c4Events).sessions "s").map Session.elements = some [] := by
  simp [c4Events, reach, applyEvent, stepEmits, step, joinSession,
    deleteElement, mkSession, alookup, aset, aupsert, aremove,
    removeFirstUser, truthyStr, initState, List.foldl]

/-! ## C5 counterexample trace: the join color is not the join-order pick -/

noncomputable def c5Events : List Event := [Event.createSession "s" 0]

/-- The color stored for socket `"a"` after it joins the fresh session (prior
roster size 0) when that join's `Math.random()` draw is `0.15`. -/
noncomputable def c5JoinedColor : Option String :=
  (alookup (applyEvent (reach c5Events)
      (Event.join "a" "s" "ua" "controller" (3 / 20) 1)).sessions "s").bind
    (fun s => (findUser s.users "a").map User.color)

/-- C5 counterexample: joining an empty room (roster size 0) with random draw
`0.15` stores color `"#4CAF50"` (= `colors[floor(0.15 * 10)]` = `colors[1]`),
while the claimed deterministic join-order rule predicts
`colors[0 % colors.length] = "#FF5252"` — so the color is not the palette
entry at index (roster size mod palette length). -/
theorem c5_counterexample :
    c5JoinedColor = some "#4CAF50" ∧
    joinColors.getD (0 % joinColors.length) "" = "#FF5252" ∧
    ("#4CAF50" : String) ≠ "#FF5252" := by
  have hfl : Nat.floor ((3 / 20 : ℝ) * 10) = 1 := by
    rw [show (3 / 20 : ℝ) * 10 = 3 / 2 by norm_num]
    exact (Nat.floor_eq_iff (by norm_num)).mpr (by norm_num)
  refine ⟨?_, by simp [joinColors], by simp⟩
  simp [c5JoinedColor, c5Events, reach, applyEvent, step, joinSession,
    mkSession, alookup, aset, aupsert, removeFirstUser, findUser, initState,
    List.foldl, hfl, joinColors]

/-! ## C7 counterexample trace: width is stored unclamped -/

noncomputable def c7Events : List Event :=
  [Event.createSession "s" 0,
   Event.join "a" "s" "ua" "controller" 0 1,
   Event.createEl "a"
     ⟨some "rect", some 5000, some 540, some 5000, none, none, none⟩ "e1" 2]

/-- The element stored under the fresh id `"e1"` after the trace above. -/
noncomputable def c7Stored : Option Element :=
  (alookup (reach c7Events).sessions "s").bind
    (fun s => findElem s.elements "e1")

/-- C7 counterexample: a `create-element` with `width = 5000` stores the width
`5000` unchanged — width is NOT clamped into the canvas bounds (it exceeds
1920), refuting the claim that all geometry including width/height is clamped;
meanwhile `x = 5000` IS stored clamped as `1920`. -/
theorem c7_counterexample :
    c7Stored.map Element.width = some 5000 ∧
    ¬ ((5000 : ℝ) ≤ 1920) ∧
    c7Stored.map Element.x = some 1920 := by
  have hw : jsNumOr (some (5000 : ℝ)) 100 = 5000 := by norm_num [jsNumOr]
  have hx : clampX 5000 = 1920 := by
    unfold clampX
    rw [min_eq_left (by norm_num), max_eq_right (by norm_num)]
  refine ⟨?_, by norm_num, ?_⟩ <;>
    simp [c7Stored, c7Events, reach, applyEvent, step, joinSession,
      createElement, mkSession, alookup, aset, aupsert, removeFirstUser,
      findElem, initState, List.foldl, hw, hx, jsStrOr]

/-! ## C2 trace: eleven joins into a capacity-10 session all succeed -/

noncomputable def c2Events : List Event :=
  [Event.createSession "s" 0,
   Event.join "u0" "s" "n0" "controller" 0 1,
   Event.join "u1" "s" "n1" "controller" 0 1,
   Event.join "u2" "s" "n2" "controller" 0 1,
   Event.join "u3" "s" "n3" "controller" 0 1,
   Event.join "u4" "s" "n4" "controller" 0 1,
   Event.join "u5" "s" "n5" "controller" 0 1,
   Event.join "u6" "s" "n6" "controller" 0 1,
   Event.join "u7" "s" "n7" "controller" 0 1,
   Event.join "u8" "s" "n8" "controller" 0 1,
   Event.join "u9" "s" "n9" "controller" 0 1]

noncomputable def c2Join11 : Event := Event.join "u10" "s" "n10" "controller" 0 2

/-- C2: the join handler enforces no capacity bound. After a session with
`maxUsers = 10` has reached a roster of 10 participants, an 11th distinct
socket's `join-session` is still accepted: the roster grows to 11 (> 10), the
join emits `user-joined` (and no `error` — in particular no
"Session is full"). -/
theorem c2_capacity_not_enforced :
    (alookup (reach c2Events).sessions "s").map (fun s => s.users.length)
      = some 10 ∧
    (alookup (reach c2Events).sessions "s").map Session.maxUsers
      = some MAX_USERS_PER_SESSION ∧
    (alookup (applyEvent (reach c2Events) c2Join11).sessions "s").map
      (fun s => s.users.length) = some 11 ∧
    MAX_USERS_PER_SESSION < 11 ∧
    (∀ m, Emit.error m ∉ stepEmits (reach c2Events) c2Join11) ∧
    (∃ u, Emit.userJoined u ∈ stepEmits (reach c2Events) c2Join11) := by
  refine ⟨?_, ?_, ?_, by norm_num [MAX_USERS_PER_SESSION], ?_, ?_⟩ <;>
    simp [c2Events, c2Join11, reach, applyEvent, stepEmits, step, joinSession,
      mkSession, alookup, aset, aupsert, removeFirstUser, initState,
      List.foldl, MAX_USERS_PER_SESSION]

/-! ## C1: goal handling is not gated on gameState.inPlay -/

/-- A session in the middle of a goal pause: `inPlay = false`, the scored goal
already recorded (`scores = {u1: 1}`), the ball still inside the left goal
rectangle awaiting the delayed respawn. This is exactly the configuration the
server is in on every tick during the 2-second pause after a goal by `"u1"`
whose shooter has since disconnected (empty roster). -/
noncomputable def c1Session : Session :=
  { id := "s"
    createdAt := 0
    lastActivity := 0
    users := []
    elements := []
    maxUsers := MAX_USERS_PER_SESSION
    ball := { x := 50, y := 540, radius := BALL_RADIUS, velocityX := 0,
              velocityY := 0, lastTouchedBy := some "u1", lastTouchTime := 0 }
    goals := [leftGoal, rightGoal]
    scores := [("u1", 1)]
    gameState := { inPlay := false, lastGoal := some "left",
                   goalMessage := "Unknown Player забил гол в левые ворота!" } }

noncomputable def c1Server : ServerState :=
  { sessions := [("s", c1Session)], assoc := [] }

/-- C1: `checkGoalCollisions` never consults `gameState.inPlay` (the flag is
written but never read anywhere in the server). On a tick during the goal
pause, with `inPlay = false` and the ball still overlapping the left goal,
the goal is handled AGAIN: `scores["u1"]` increments from 1 to 2 and a second
`goal` event (plus a second scheduled respawn) is emitted — refuting the claim
that a goal is handled only while `inPlay` is true and that exactly one `goal`
event and one score increment occur per goal. -/
theorem c1_goal_refire :
    c1Session.gameState.inPlay = false ∧
    scoreGet c1Session.scores "u1" = 1 ∧
    (alookup (applyEvent c1Server (Event.tick "s" 7)).sessions "s").map
      (fun s => scoreGet s.scores "u1") = some 2 ∧
    Emit.goal "left" (some "u1") "Unknown Player забил гол в левые ворота!"
      ∈ stepEmits c1Server (Event.tick "s" 7) ∧
    Emit.scheduleRespawn "s" 2000 ∈ stepEmits c1Server (Event.tick "s" 7) := by
  refine ⟨rfl, by simp [c1Session, scoreGet], ?_, ?_, ?_⟩ <;>
    norm_num [c1Server, c1Session, applyEvent, stepEmits, step, stepTick,
      alookup, aset, tickSession, updateBallPhysics, integrateBall,
      bounceWalls, checkBallCursorCollisions, checkCursorCollisions,
      newPositions, applyNewPositions, firstHitGoal, checkGoalCollisions,
      scoreGet, scoreSet, findUser, sideWordRu, leftGoal, rightGoal,
      BALL_RADIUS, BALL_SPEED_LIMIT, FRICTION, RESTITUTION, GOAL_WIDTH,
      GOAL_HEIGHT, Real.sqrt_zero, abs_zero, List.foldl] <;>
    exact Or.inl (by decide)

/-! ## C3 counterexample trace: a cursor hit boosts the ball past the limit -/

noncomputable def c3Events : List Event :=
  [Event.createSession "s" 0,
   Event.join "a" "s" "ua" "controller" 0 1,
   Event.cursor "a" (some 958) (some 540) 2,
   Event.tick "s" 3]

/-- The ball's speed magnitude in session `"s"` after the trace above, whose
last event is one complete physics tick. -/
noncomputable def c3BallSpeedAfter : Option ℝ :=
  (alookup (reach c3Events).sessions "s").map
    (fun s => Real.sqrt (s.ball.velocityX ^ 2 + s.ball.velocityY ^ 2))

noncomputable def c3UserJ : User :=
  { id := "a", username := "ua", userType := "controller", color := "#FF5252"
    x := 960, y := 540, lastUpdate := 1 }

noncomputable def c3UserC : User :=
  { id := "a", username := "ua", userType := "controller", color := "#FF5252"
    x := 958, y := 540, lastUpdate := 2 }

/-- C3 counterexample: a controller cursor standing 2 px from the ball center
imparts, within one complete tick, the capped impulse
`force * BALL_SPEED_LIMIT = 1.5 * 15 = 22.5`: after that tick the ball speed
is `45/2 = 22.5 > 15 = BALL_SPEED_LIMIT`, refuting the claim that the speed
magnitude never exceeds the limit after a complete tick. -/
theorem c3_counterexample :
    c3BallSpeedAfter = some (45 / 2) ∧
    ¬ ((45 : ℝ) / 2 ≤ BALL_SPEED_LIMIT) := by
  have hcx : clampX 958 = 958 := clampX_of_bounds _ (by norm_num) (by norm_num)
  have hcy : clampY 540 = 540 := clampY_of_bounds _ (by norm_num) (by norm_num)
  have habs : (1 : ℝ) < |(958 : ℝ) - 960| := by
    rw [show (958 : ℝ) - 960 = -2 by norm_num, abs_neg,
      abs_of_nonneg (by norm_num : (0 : ℝ) ≤ 2)]
    norm_num
  have habs' : |(958 : ℝ) - 960| > 1 := habs
  have hs4 : Real.sqrt (4 : ℝ) = 2 := by
    rw [show (4 : ℝ) = 2 ^ 2 by norm_num]
    exact Real.sqrt_sq (by norm_num)
  have hs2025 : Real.sqrt (2025 / 4 : ℝ) = 45 / 2 := by
    rw [show (2025 / 4 : ℝ) = (45 / 2) ^ 2 by norm_num]
    exact Real.sqrt_sq (by norm_num)
  have ha : applyEvent initState (Event.createSession "s" 0) =
      ServerState.mk [("s", mkSession "s" 0)] [] := by
    simp [applyEvent, step, initState, aupsert, alookup]
  have hb : applyEvent (ServerState.mk [("s", mkSession "s" 0)] [])
      (Event.join "a" "s" "ua" "controller" 0 1) =
      ServerState.mk [("s", { mkSession "s" 0 with users := [c3UserJ] })]
        [("a", "s")] := by
    simp [applyEvent, step, joinSession, alookup, aset, aupsert,
      removeFirstUser, mkSession, jsUsername, joinColors, c3UserJ]
  have hc : applyEvent
      (ServerState.mk [("s", { mkSession "s" 0 with users := [c3UserJ] })]
        [("a", "s")])
      (Event.cursor "a" (some 958) (some 540) 2) =
      ServerState.mk
        [("s", { mkSession "s" 0 with users := [c3UserC], lastActivity := 2 })]
        [("a", "s")] := by
    simp [applyEvent, step, cursorUpdate, alookup, aset, findUser,
      mapFirstUser, mkSession, c3UserJ, c3UserC, hcx, hcy, habs, habs']
  have hd : (reach c3Events).sessions =
      (applyEvent
        (ServerState.mk
          [("s", { mkSession "s" 0 with users := [c3UserC], lastActivity := 2 })]
          [("a", "s")])
        (Event.tick "s" 3)).sessions := by
    simp only [reach, c3Events, List.foldl, ha, hb, hc]
  rw [c3BallSpeedAfter, hd]
  refine ⟨?_, by norm_num [BALL_SPEED_LIMIT]⟩
  have hstr : (("controller" : String) = "display") = False := by simp
  norm_num [hstr, applyEvent, step, stepTick, alookup, aset, tickSession,
    updateBallPhysics, integrateBall, bounceWalls,
    checkBallCursorCollisions, collideBallCursor, checkCursorCollisions,
    newPositions, cursorOffset, repulsionOffset, applyNewPositions,
    firstHitGoal, checkGoalCollisions, mkSession, initialBall, c3UserC,
    findUser, leftGoal, rightGoal, BALL_RADIUS, CURSOR_RADIUS,
    BALL_SPEED_LIMIT, FRICTION, RESTITUTION, CURSOR_REPULSION_FORCE,
    GOAL_WIDTH, GOAL_HEIGHT, Real.sqrt_zero, abs_zero, min_def, max_def,
    hs4, hs2025, List.enum, List.foldl]

/-! ## C3 (amended): the post-tick speed bound is 1.5 × BALL_SPEED_LIMIT -/

/-- The squared speed magnitude of the ball. -/
noncomputable def speedSq (b : Ball) : ℝ := b.velocityX ^ 2 + b.velocityY ^ 2

theorem clamped_speed_le (vx vy : ℝ) :
    (if Real.sqrt (vx * vx + vy * vy) > BALL_SPEED_LIMIT then
        vx * (BALL_SPEED_LIMIT / Real.sqrt (vx * vx + vy * vy)) else vx) ^ 2 +
    (if Real.sqrt (vx * vx + vy * vy) > BALL_SPEED_LIMIT then
        vy * (BALL_SPEED_LIMIT / Real.sqrt (vx * vx + vy * vy)) else vy) ^ 2 ≤
      BALL_SPEED_LIMIT ^ 2 := by
  have hs0 : 0 ≤ vx * vx + vy * vy :=
    add_nonneg (mul_self_nonneg vx) (mul_self_nonneg vy)
  have hsq : Real.sqrt (vx * vx + vy * vy) ^ 2 = vx * vx + vy * vy :=
    Real.sq_sqrt hs0
  by_cases h : Real.sqrt (vx * vx + vy * vy) > BALL_SPEED_LIMIT
  · simp only [if_pos h]
    have hpos : 0 < Real.sqrt (vx * vx + vy * vy) := by
      have : (0 : ℝ) < BALL_SPEED_LIMIT := by norm_num [BALL_SPEED_LIMIT]
      linarith
    have hne : Real.sqrt (vx * vx + vy * vy) ≠ 0 := ne_of_gt hpos
    have hexp : (vx * (BALL_SPEED_LIMIT / Real.sqrt (vx * vx + vy * vy))) ^ 2 +
        (vy * (BALL_SPEED_LIMIT / Real.sqrt (vx * vx + vy * vy))) ^ 2 =
        BALL_SPEED_LIMIT ^ 2 *
          ((vx * vx + vy * vy) / Real.sqrt (vx * vx + vy * vy) ^ 2) := by
      field_simp
      ring
    have hspos : 0 < vx * vx + vy * vy := hsq ▸ pow_pos hpos 2
    rw [hexp, hsq, div_self (ne_of_gt hspos)]
    norm_num
  · simp only [if_neg h]
    push_neg at h
    have : vx ^ 2 + vy ^ 2 = Real.sqrt (vx * vx + vy * vy) ^ 2 := by
      rw [hsq]; ring
    rw [this]
    have hnn : 0 ≤ Real.sqrt (vx * vx + vy * vy) := Real.sqrt_nonneg _
    exact pow_le_pow_left hnn h 2

theorem integrateBall_speedSq (b : Ball) :
    speedSq (integrateBall b) ≤ BALL_SPEED_LIMIT ^ 2 := by
  simp only [integrateBall, speedSq]
  exact clamped_speed_le _ _

theorem bounceWalls_speedSq (b : Ball) : speedSq (bounceWalls b) ≤ speedSq b := by
  simp only [bounceWalls, speedSq, RESTITUTION]
  split_ifs <;>
    nlinarith [sq_nonneg b.velocityX, sq_nonneg b.velocityY]

theorem collideBallCursor_speedSq (now : ℤ) (b : Ball) (u : User) :
    speedSq (collideBallCursor now b u) ≤
      max (speedSq b) ((3 / 2 * BALL_SPEED_LIMIT) ^ 2) := by
  unfold collideBallCursor
  by_cases hdisp : u.userType = "display"
  · simp only [if_pos hdisp]
    exact le_max_left _ _
  simp only [if_neg hdisp]
  set dx := b.x - u.x with hdx
  set dy := b.y - u.y with hdy
  set d := Real.sqrt (dx * dx + dy * dy) with hd
  by_cases hcol : d < b.radius + CURSOR_RADIUS
  · simp only [if_pos hcol]
    set force := min ((b.radius + CURSOR_RADIUS - d) * 0.05) 1.5 with hforce
    have hfpos : 0 < force := by
      rw [hforce]
      have h1 : 0 < (b.radius + CURSOR_RADIUS - d) * 0.05 := by nlinarith
      have h2 : (0 : ℝ) < 1.5 := by norm_num
      exact lt_min h1 h2
    have hfle : force ≤ 3 / 2 := by
      rw [hforce]
      exact le_trans (min_le_right _ _) (by norm_num)
    have hfsq : force ^ 2 ≤ (3 / 2) ^ 2 :=
      sq_le_sq' (by linarith) hfle
    have hL0 : (0 : ℝ) ≤ BALL_SPEED_LIMIT := by norm_num [BALL_SPEED_LIMIT]
    by_cases hz : d = 0
    · simp only [if_pos hz, speedSq]
      refine le_trans ?_ (le_max_right _ _)
      have : ((1 : ℝ) * force * BALL_SPEED_LIMIT) ^ 2 +
          ((0 : ℝ) * force * BALL_SPEED_LIMIT) ^ 2 =
          force ^ 2 * BALL_SPEED_LIMIT ^ 2 := by ring
      rw [this, show ((3 : ℝ) / 2 * BALL_SPEED_LIMIT) ^ 2 =
        (3 / 2) ^ 2 * BALL_SPEED_LIMIT ^ 2 by ring]
      exact mul_le_mul_of_nonneg_right hfsq (sq_nonneg _)
    · simp only [if_neg hz, speedSq]
      refine le_trans ?_ (le_max_right _ _)
      have hdd : d ^ 2 = dx * dx + dy * dy :=
        Real.sq_sqrt (add_nonneg (mul_self_nonneg dx) (mul_self_nonneg dy))
      have hssne : dx * dx + dy * dy ≠ 0 := by
        intro hcontra
        apply hz
        rw [hd, hcontra, Real.sqrt_zero]
      have hexp : (dx / d * force * BALL_SPEED_LIMIT) ^ 2 +
          (dy / d * force * BALL_SPEED_LIMIT) ^ 2 =
          ((dx * dx + dy * dy) / d ^ 2) * (force ^ 2 * BALL_SPEED_LIMIT ^ 2) := by
        field_simp
        ring
      rw [hexp, hdd, div_self hssne, one_mul,
        show ((3 : ℝ) / 2 * BALL_SPEED_LIMIT) ^ 2 =
          (3 / 2) ^ 2 * BALL_SPEED_LIMIT ^ 2 by ring]
      exact mul_le_mul_of_nonneg_right hfsq (sq_nonneg _)
  · simp only [if_neg hcol]
    exact le_max_left _ _

theorem foldl_collide_speedSq (now : ℤ) (us : List User) (b : Ball) :
    speedSq (us.foldl (collideBallCursor now) b) ≤
      max (speedSq b) ((3 / 2 * BALL_SPEED_LIMIT) ^ 2) := by
  induction us generalizing b with
  | nil => exact le_max_left _ _
  | cons u rest ih =>
    refine le_trans (ih (collideBallCursor now b u)) ?_
    have h1 := collideBallCursor_speedSq now b u
    have := max_le_max h1 (le_refl ((3 / 2 * BALL_SPEED_LIMIT) ^ 2))
    simpa [max_assoc] using this

theorem checkCursorCollisions_ball (s : Session) :
    (checkCursorCollisions s).1.ball = s.ball := rfl

theorem checkGoalCollisions_ball (s : Session) :
    (checkGoalCollisions s).1.ball = s.ball := by
  unfold checkGoalCollisions
  rcases firstHitGoal s.ball s.goals with _ | g
  · rfl
  · rcases hlt : s.ball.lastTouchedBy with _ | scorer <;> rfl

/-- C3 (amended): after any complete physics tick, the ball's speed magnitude
`sqrt(velocityX² + velocityY²)` is at most `1.5 × BALL_SPEED_LIMIT = 22.5`.
The integration step clamps the speed to `BALL_SPEED_LIMIT = 15` and wall
bounces only shrink it, but a ball–cursor collision in the same tick can set
the speed to `min(overlap·0.05, 1.5) · BALL_SPEED_LIMIT`, up to `22.5 > 15` —
so `15` bounds the speed only until the collision phase, and `22.5` is the
invariant bound that actually holds after a complete tick. -/
theorem c3_amended (s : Session) (now : ℤ) :
    Real.sqrt ((tickSession s now).1.ball.velocityX ^ 2 +
      (tickSession s now).1.ball.velocityY ^ 2) ≤ 3 / 2 * BALL_SPEED_LIMIT := by
  have hball : (tickSession s now).1.ball =
      (checkBallCursorCollisions (updateBallPhysics s) now).ball := by
    unfold tickSession
    rw [checkGoalCollisions_ball, checkCursorCollisions_ball]
  have hsq : speedSq (checkBallCursorCollisions (updateBallPhysics s) now).ball ≤
      ((3 / 2 * BALL_SPEED_LIMIT) ^ 2) := by
    unfold checkBallCursorCollisions
    refine le_trans (foldl_collide_speedSq now _ _) (max_le ?_ le_rfl)
    refine le_trans ?_ (by norm_num [BALL_SPEED_LIMIT] :
      BALL_SPEED_LIMIT ^ 2 ≤ (3 / 2 * BALL_SPEED_LIMIT) ^ 2)
    unfold updateBallPhysics
    exact le_trans (bounceWalls_speedSq _) (integrateBall_speedSq _)
  rw [hball]
  have hnn : (0 : ℝ) ≤ 3 / 2 * BALL_SPEED_LIMIT := by norm_num [BALL_SPEED_LIMIT]
  calc Real.sqrt ((checkBallCursorCollisions (updateBallPhysics s) now).ball.velocityX ^ 2 +
        (checkBallCursorCollisions (updateBallPhysics s) now).ball.velocityY ^ 2)
      ≤ Real.sqrt ((3 / 2 * BALL_SPEED_LIMIT) ^ 2) := Real.sqrt_le_sqrt hsq
    _ = 3 / 2 * BALL_SPEED_LIMIT := Real.sqrt_sq hnn

/-! ## C6/C10: bounds and roster-uniqueness invariants over all traces -/

def BallInBounds (b : Ball) : Prop :=
  0 ≤ b.x ∧ b.x ≤ 1920 ∧ 0 ≤ b.y ∧ b.y ≤ 1080

def UserInBounds (u : User) : Prop :=
  0 ≤ u.x ∧ u.x ≤ 1920 ∧ 0 ≤ u.y ∧ u.y ≤ 1080

def ElemInBounds (e : Element) : Prop :=
  0 ≤ e.x ∧ e.x ≤ 1920 ∧ 0 ≤ e.y ∧ e.y ≤ 1080

/-- All stored coordinates of a session lie within the canvas. -/
def SessionInBounds (s : Session) : Prop :=
  BallInBounds s.ball ∧ (∀ u ∈ s.users, UserInBounds u) ∧
    (∀ e ∈ s.elements, ElemInBounds e)

/-- The inductive invariant for C6: bounds plus the fixed ball radius
(needed so that the wall clamp lands inside the canvas). -/
def SessionOk (s : Session) : Prop :=
  s.ball.radius = BALL_RADIUS ∧ SessionInBounds s

def InvOk (st : ServerState) : Prop := ∀ p ∈ st.sessions, SessionOk p.2

theorem clampPos_bounds (x y : ℝ) :
    0 ≤ clampX x ∧ clampX x ≤ 1920 ∧ 0 ≤ clampY y ∧ clampY y ≤ 1080 :=
  ⟨clampX_nonneg x, clampX_le x, clampY_nonneg y, clampY_le y⟩

theorem mkSession_ok (sid : String) (now : ℤ) : SessionOk (mkSession sid now) := by
  refine ⟨rfl, ?_, ?_, ?_⟩ <;>
    simp [mkSession, initialBall, BallInBounds] <;> norm_num

/-! ### Tick-phase lemmas -/

theorem integrateBall_pos (b : Ball) :
    (integrateBall b).radius = b.radius := rfl

theorem bounceWalls_radius (b : Ball) : (bounceWalls b).radius = b.radius := rfl

theorem bounceWalls_bounds (b : Ball) (hr : b.radius = BALL_RADIUS) :
    BallInBounds (bounceWalls b) := by
  simp only [bounceWalls, BallInBounds, hr, BALL_RADIUS]
  refine ⟨?_, ?_, ?_, ?_⟩ <;> split_ifs <;> linarith

theorem collideBallCursor_pos (now : ℤ) (b : Ball) (u : User) :
    (collideBallCursor now b u).x = b.x ∧ (collideBallCursor now b u).y = b.y ∧
      (collideBallCursor now b u).radius = b.radius := by
  unfold collideBallCursor
  by_cases h1 : u.userType = "display"
  · simp [h1]
  · simp only [if_neg h1]
    split_ifs <;> simp

theorem foldl_collide_pos (now : ℤ) (us : List User) (b : Ball) :
    (us.foldl (collideBallCursor now) b).x = b.x ∧
    (us.foldl (collideBallCursor now) b).y = b.y ∧
    (us.foldl (collideBallCursor now) b).radius = b.radius := by
  induction us generalizing b with
  | nil => exact ⟨rfl, rfl, rfl⟩
  | cons u rest ih =>
    have h1 := collideBallCursor_pos now b u
    have h2 := ih (collideBallCursor now b u)
    simp only [List.foldl_cons]
    exact ⟨h2.1.trans h1.1, h2.2.1.trans h1.2.1, h2.2.2.trans h1.2.2⟩

theorem newPositions_aux (users : List User) (l : List (ℕ × User))
    (acc : List (String × ℝ × ℝ))
    (hacc : ∀ q ∈ acc, 0 ≤ q.2.1 ∧ q.2.1 ≤ 1920 ∧ 0 ≤ q.2.2 ∧ q.2.2 ≤ 1080) :
    ∀ q ∈ l.foldl
      (fun acc iu =>
        if iu.2.userType = "display" then acc
        else
          let o := cursorOffset users iu.1 iu.2
          if o.1 ≠ 0 ∨ o.2 ≠ 0 then
            acc ++ [(iu.2.id, clampX (iu.2.x + o.1), clampY (iu.2.y + o.2))]
          else acc)
      acc,
      0 ≤ q.2.1 ∧ q.2.1 ≤ 1920 ∧ 0 ≤ q.2.2 ∧ q.2.2 ≤ 1080 := by
  induction l generalizing acc with
  | nil => exact hacc
  | cons iu rest ih =>
    intro q hq
    simp only [List.foldl_cons] at hq
    refine ih _ ?_ q hq
    intro q' hq'
    by_cases hd : iu.2.userType = "display"
    · rw [if_pos hd] at hq'
      exact hacc q' hq'
    rw [if_neg hd] at hq'
    by_cases ho : (cursorOffset users iu.1 iu.2).1 ≠ 0 ∨
        (cursorOffset users iu.1 iu.2).2 ≠ 0
    · rw [if_pos ho] at hq'
      rcases List.mem_append.mp hq' with h | h
      · exact hacc q' h
      · simp only [List.mem_singleton] at h
        subst h
        exact clampPos_bounds _ _
    · rw [if_neg ho] at hq'
      exact hacc q' hq'

theorem newPositions_mem (users : List User) :
    ∀ q ∈ newPositions users,
      0 ≤ q.2.1 ∧ q.2.1 ≤ 1920 ∧ 0 ≤ q.2.2 ∧ q.2.2 ≤ 1080 := by
  unfold newPositions
  exact newPositions_aux users users.enum [] (by simp)

theorem mapFirstUser_mem (l : List User) (k : String) (f : User → User)
    (x : User) (hx : x ∈ mapFirstUser l k f) : x ∈ l ∨ ∃ u, u ∈ l ∧ x = f u := by
  induction l with
  | nil => simp [mapFirstUser] at hx
  | cons u rest ih =>
    by_cases h : u.id = k
    · simp only [mapFirstUser, if_pos h, List.mem_cons] at hx
      rcases hx with hx | hx
      · exact Or.inr ⟨u, by simp, hx⟩
      · exact Or.inl (List.mem_cons_of_mem _ hx)
    · simp only [mapFirstUser, if_neg h, List.mem_cons] at hx
      rcases hx with hx | hx
      · exact Or.inl (by simp [hx])
      · rcases ih hx with h' | ⟨w, hw, hxw⟩
        · exact Or.inl (List.mem_cons_of_mem _ h')
        · exact Or.inr ⟨w, List.mem_cons_of_mem _ hw, hxw⟩

theorem applyNewPositions_aux (ps : List (String × ℝ × ℝ))
    (acc : List User × List Emit)
    (hacc : ∀ u ∈ acc.1, UserInBounds u)
    (hps : ∀ q ∈ ps, 0 ≤ q.2.1 ∧ q.2.1 ≤ 1920 ∧ 0 ≤ q.2.2 ∧ q.2.2 ≤ 1080) :
    ∀ u ∈ (ps.foldl
      (fun acc p =>
        if (findUser acc.1 p.1).isSome then
          (mapFirstUser acc.1 p.1 (fun u => { u with x := p.2.1, y := p.2.2 }),
           acc.2 ++ [Emit.cursorUpdated p.1 p.2.1 p.2.2])
        else acc)
      acc).1, UserInBounds u := by
  induction ps generalizing acc with
  | nil => exact hacc
  | cons p rest ih =>
    intro u hu
    simp only [List.foldl_cons] at hu
    refine ih _ ?_ (fun q hq => hps q (List.mem_cons_of_mem _ hq)) u hu
    intro u' hu'
    by_cases hf : (findUser acc.1 p.1).isSome
    · rw [if_pos hf] at hu'
      simp only at hu'
      rcases mapFirstUser_mem _ _ _ _ hu' with h | ⟨w, hw, hxw⟩
      · exact hacc u' h
      · subst hxw
        have := hps p (by simp)
        exact ⟨this.1, this.2.1, this.2.2.1, this.2.2.2⟩
    · rw [if_neg hf] at hu'
      exact hacc u' hu'

theorem applyNewPositions_bounds (users : List User)
    (h : ∀ u ∈ users, UserInBounds u) :
    ∀ u ∈ (applyNewPositions users (newPositions users)).1, UserInBounds u := by
  unfold applyNewPositions
  exact applyNewPositions_aux _ (users, []) h (newPositions_mem users)

theorem checkGoalCollisions_fields (s : Session) :
    (checkGoalCollisions s).1.users = s.users ∧
    (checkGoalCollisions s).1.elements = s.elements ∧
    (checkGoalCollisions s).1.ball = s.ball := by
  unfold checkGoalCollisions
  rcases firstHitGoal s.ball s.goals with _ | g
  · exact ⟨rfl, rfl, rfl⟩
  · rcases s.ball.lastTouchedBy with _ | scorer <;> exact ⟨rfl, rfl, rfl⟩

/-- Field characterization of one tick: the resulting ball is the
integrated + wall-bounced + cursor-collided ball, the resulting users are the
repulsion-adjusted users, the elements are untouched. -/
theorem tickSession_fields (s : Session) (now : ℤ) :
    (tickSession s now).1.ball =
      s.users.foldl (collideBallCursor now) (bounceWalls (integrateBall s.ball)) ∧
    (tickSession s now).1.users =
      (applyNewPositions s.users (newPositions s.users)).1 ∧
    (tickSession s now).1.elements = s.elements := by
  unfold tickSession
  refine ⟨?_, ?_, ?_⟩
  · rw [(checkGoalCollisions_fields _).2.2]; rfl
  · rw [(checkGoalCollisions_fields _).1]; rfl
  · rw [(checkGoalCollisions_fields _).2.1]; rfl

/-- The tick preserves the session invariant (and in fact re-establishes the
ball bounds unconditionally, since the wall clamp lands in `[r, 1920 - r]`). -/
theorem tickSession_ok (s : Session) (now : ℤ) (h : SessionOk s) :
    SessionOk (tickSession s now).1 := by
  obtain ⟨hr, _, hus, hel⟩ := h
  obtain ⟨hb, hu, he⟩ := tickSession_fields s now
  have hpos := foldl_collide_pos now s.users (bounceWalls (integrateBall s.ball))
  have hbb : BallInBounds (bounceWalls (integrateBall s.ball)) :=
    bounceWalls_bounds _ (by rw [integrateBall_pos]; exact hr)
  refine ⟨?_, ?_, ?_, ?_⟩
  · rw [hb, hpos.2.2, bounceWalls_radius, integrateBall_pos]
    exact hr
  · rw [BallInBounds, hb, hpos.1, hpos.2.1]
    exact hbb
  · rw [hu]
    exact applyNewPositions_bounds s.users hus
  · rw [he]
    exact hel

theorem removeFirstUser_mem (l : List User) (k : String) (x : User)
    (hx : x ∈ removeFirstUser l k) : x ∈ l := by
  induction l with
  | nil => simpa [removeFirstUser] using hx
  | cons u rest ih =>
    by_cases h : u.id = k
    · simp only [removeFirstUser, if_pos h] at hx
      exact List.mem_cons_of_mem _ hx
    · simp only [removeFirstUser, if_neg h, List.mem_cons] at hx
      rcases hx with hx | hx
      · simp [hx]
      · exact List.mem_cons_of_mem _ (ih hx)

theorem mapFirstElem_mem (l : List Element) (k : String) (f : Element → Element)
    (x : Element) (hx : x ∈ mapFirstElem l k f) :
    x ∈ l ∨ ∃ e, e ∈ l ∧ x = f e := by
  induction l with
  | nil => simp [mapFirstElem] at hx
  | cons e rest ih =>
    by_cases h : e.id = k
    · simp only [mapFirstElem, if_pos h, List.mem_cons] at hx
      rcases hx with hx | hx
      · exact Or.inr ⟨e, by simp, hx⟩
      · exact Or.inl (List.mem_cons_of_mem _ hx)
    · simp only [mapFirstElem, if_neg h, List.mem_cons] at hx
      rcases hx with hx | hx
      · exact Or.inl (by simp [hx])
      · rcases ih hx with h' | ⟨w, hw, hxw⟩
        · exact Or.inl (List.mem_cons_of_mem _ h')
        · exact Or.inr ⟨w, List.mem_cons_of_mem _ hw, hxw⟩

theorem findElem_mem (l : List Element) (k : String) (e : Element)
    (he : findElem l k = some e) : e ∈ l := by
  induction l with
  | nil => simp [findElem] at he
  | cons e0 rest ih =>
    by_cases h : e0.id = k
    · simp only [findElem, if_pos h, Option.some.injEq] at he
      simp [he.symm]
    · simp only [findElem, if_neg h] at he
      exact List.mem_cons_of_mem _ (ih he)

theorem mergeElement_bounds (e : Element) (d : UpdateData) (now : ℤ)
    (he : ElemInBounds e) : ElemInBounds (mergeElement e d now) := by
  unfold mergeElement ElemInBounds
  rcases d.x with _ | vx <;> rcases d.y with _ | vy <;>
    simp only <;>
    exact ⟨by first | exact he.1 | exact clampX_nonneg _,
      by first | exact he.2.1 | exact clampX_le _,
      by first | exact he.2.2.1 | exact clampY_nonneg _,
      by first | exact he.2.2.2 | exact clampY_le _⟩

/-- One event preserves the C6 invariant. -/
theorem step_ok (st : ServerState) (e : Event) (h : InvOk st) :
    InvOk (applyEvent st e) := by
  cases e with
  | createSession sid now =>
    simp only [applyEvent, step]
    exact aupsert_forall _ st.sessions sid _ h (fun k' => mkSession_ok sid now)
  | join sock sid username userType rand now =>
    simp only [applyEvent, step, joinSession]
    cases hses : alookup st.sessions sid with
    | none => exact h
    | some sess =>
      simp only
      have hok := h _ (alookup_mem _ _ _ hses)
      refine aset_forall _ st.sessions sid _ h (fun k' => ?_)
      refine ⟨hok.1, hok.2.1, ?_, hok.2.2.2⟩
      intro u hu
      rcases List.mem_append.mp hu with hu | hu
      · exact hok.2.2.1 u (removeFirstUser_mem _ _ _ hu)
      · simp only [List.mem_singleton] at hu
        subst hu
        exact ⟨by norm_num, by norm_num, by norm_num, by norm_num⟩
  | cursor sock ox oy now =>
    simp only [applyEvent, step, cursorUpdate]
    cases hassoc : alookup st.assoc sock with
    | none => exact h
    | some sid =>
      simp only
      cases hses : alookup st.sessions sid with
      | none => exact h
      | some sess =>
        simp only
        have hok := h _ (alookup_mem _ _ _ hses)
        cases ox with
        | none => exact h
        | some x =>
          cases oy with
          | none => exact h
          | some y =>
            simp only
            cases hfu : findUser sess.users sock with
            | none =>
              exact aset_forall _ st.sessions sid _ h
                (fun k' => ⟨hok.1, hok.2.1, hok.2.2.1, hok.2.2.2⟩)
            | some u =>
              simp only
              split_ifs with hmove
              · refine aset_forall _ st.sessions sid _ h (fun k' => ?_)
                refine ⟨hok.1, hok.2.1, ?_, hok.2.2.2⟩
                intro w hw
                rcases mapFirstUser_mem _ _ _ _ hw with h' | ⟨v, hv, hwv⟩
                · exact hok.2.2.1 w h'
                · subst hwv
                  exact ⟨clampX_nonneg _, clampX_le _, clampY_nonneg _,
                    clampY_le _⟩
              · exact aset_forall _ st.sessions sid _ h
                  (fun k' => ⟨hok.1, hok.2.1, hok.2.2.1, hok.2.2.2⟩)
  | createEl sock d uuid now =>
    simp only [applyEvent, step, createElement]
    cases hassoc : alookup st.assoc sock with
    | none => exact h
    | some sid =>
      simp only
      cases hses : alookup st.sessions sid with
      | none => exact h
      | some sess =>
        simp only
        have hok := h _ (alookup_mem _ _ _ hses)
        rcases d with ⟨dt, dx, dy, dw, dh, dc, dtx⟩
        cases dt with
        | none => exact h
        | some t =>
          cases dx with
          | none => exact h
          | some xv =>
            cases dy with
            | none => exact h
            | some yv =>
              simp only
              split_ifs with ht
              · exact h
              · refine aset_forall _ st.sessions sid _ h (fun k' => ?_)
                refine ⟨hok.1, hok.2.1, hok.2.2.1, ?_⟩
                intro w hw
                rcases List.mem_append.mp hw with hw | hw
                · exact hok.2.2.2 w hw
                · simp only [List.mem_singleton] at hw
                  subst hw
                  exact ⟨clampX_nonneg _, clampX_le _, clampY_nonneg _,
                    clampY_le _⟩
  | updateEl sock d now =>
    simp only [applyEvent, step, updateElement]
    cases hassoc : alookup st.assoc sock with
    | none => exact h
    | some sid =>
      simp only
      cases hses : alookup st.sessions sid with
      | none => exact h
      | some sess =>
        simp only
        have hok := h _ (alookup_mem _ _ _ hses)
        split_ifs with hid
        · cases hfe : findElem sess.elements (d.id.getD "") with
          | none => exact h
          | some e0 =>
            simp only
            refine aset_forall _ st.sessions sid _ h (fun k' => ?_)
            refine ⟨hok.1, hok.2.1, hok.2.2.1, ?_⟩
            intro w hw
            rcases mapFirstElem_mem _ _ _ _ hw with h' | ⟨v, hv, hwv⟩
            · exact hok.2.2.2 w h'
            · subst hwv
              exact mergeElement_bounds _ _ _
                (hok.2.2.2 e0 (findElem_mem _ _ _ hfe))
        · exact h
  | deleteEl sock oid now =>
    simp only [applyEvent, step, deleteElement]
    cases hassoc : alookup st.assoc sock with
    | none => exact h
    | some sid =>
      simp only
      cases hses : alookup st.sessions sid with
      | none => exact h
      | some sess =>
        simp only
        have hok := h _ (alookup_mem _ _ _ hses)
        split_ifs with hid
        · refine aset_forall _ st.sessions sid _ h (fun k' => ?_)
          refine ⟨hok.1, hok.2.1, hok.2.2.1, ?_⟩
          intro w hw
          exact hok.2.2.2 w (List.mem_of_mem_filter hw)
        · exact h
  | disconnect sock now =>
    simp only [applyEvent, step, disconnectSocket]
    cases hassoc : alookup st.assoc sock with
    | none => exact h
    | some sid =>
      simp only
      cases hses : alookup st.sessions sid with
      | some sess =>
        simp only
        have hok := h _ (alookup_mem _ _ _ hses)
        refine aset_forall _ st.sessions sid _ h (fun k' => ?_)
        refine ⟨hok.1, hok.2.1, ?_, hok.2.2.2⟩
        intro w hw
        exact hok.2.2.1 w (List.mem_of_mem_filter hw)
      | none => exact h
  | tick sid now =>
    simp only [applyEvent, step, stepTick]
    cases hses : alookup st.sessions sid with
    | none => exact h
    | some sess =>
      simp only
      have hok := h _ (alookup_mem _ _ _ hses)
      exact aset_forall _ st.sessions sid _ h
        (fun k' => tickSession_ok sess now hok)
  | respawn sid =>
    simp only [applyEvent, step, respawnFires]
    cases hses : alookup st.sessions sid with
    | none => exact h
    | some sess =>
      simp only
      have hok := h _ (alookup_mem _ _ _ hses)
      refine aset_forall _ st.sessions sid _ h (fun k' => ?_)
      exact ⟨hok.1, ⟨by norm_num, by norm_num, by norm_num, by norm_num⟩,
        hok.2.2.1, hok.2.2.2⟩
  | reap now =>
    simp only [applyEvent, step, reapSessions]
    intro p hp
    exact h p (List.mem_of_mem_filter hp)

theorem reach_ok (events : List Event) : InvOk (reach events) := by
  have haux : ∀ (es : List Event) (st : ServerState), InvOk st →
      InvOk (es.foldl applyEvent st) := by
    intro es
    induction es with
    | nil => exact fun st hst => hst
    | cons e rest ih =>
      intro st hst
      exact ih _ (step_ok st e hst)
  exact haux events initState (by intro p hp; simp [initState] at hp)

/-- Bounds over every trace of this model: since `UpdateData` carries only
absent-or-numeric coordinates, this says all stored coordinates stay within
the canvas on every trace whose `update-element` payloads are numeric. It is
NOT the program's invariant: the source's `update-element` also accepts a
present non-numeric `x`/`y` and stores the coerced `NaN` (the `JsNum` model
below), which is exactly the case this real-valued state space cannot
represent — so the `NaN` coercion is the one path out of bounds. -/
theorem reach_bounds (events : List Event) :
    ∀ p ∈ (reach events).sessions, SessionInBounds p.2 :=
  fun p hp => ((reach_ok events) p hp).2

/-! ### C6: the NaN hole in update-element -/

/-- A JS number as the `update-element` handler actually receives it: a real,
or `NaN` (what `ToNumber` yields for a non-numeric payload field such as
`"abc"`). -/
inductive JsNum where
  | num (r : ℝ)
  | nan

/-- `Math.min`: an argument that coerces to `NaN` makes the result `NaN`. -/
noncomputable def jsMin : JsNum → JsNum → JsNum
  | .num a, .num b => .num (min a b)
  | _, _ => .nan

/-- `Math.max`: the same `NaN` propagation. -/
noncomputable def jsMax : JsNum → JsNum → JsNum
  | .num a, .num b => .num (max a b)
  | _, _ => .nan

/-- JS `<=`: every comparison with `NaN` is false. -/
def jsLe : JsNum → JsNum → Prop
  | .num a, .num b => a ≤ b
  | _, _ => False

/-- The stored x of the `update-element` merge, from the source line
`x: updateData.x !== undefined ? Math.max(0, Math.min(1920, updateData.x)) :
element.x`, with JS number semantics. The handler validates only `!id`:
there is no `typeof` check on `x`/`y` (unlike `cursor-update` and
`create-element`). -/
noncomputable def updateElementX (oldX : JsNum) (payloadX : Option JsNum) : JsNum :=
  match payloadX with
  | some v => jsMax (.num 0) (jsMin (.num 1920) v)
  | none => oldX

/-- C6: the bounds invariant is violated by the code. An `update-element`
whose present `x` is non-numeric (`ToNumber = NaN`, e.g. `x: "abc"`) passes
the handler's only check (`!id`) and stores
`Math.max(0, Math.min(1920, NaN)) = NaN` as the element's x — and `NaN`
satisfies neither `0 <= x` nor `x <= 1920`. A numeric payload, by contrast,
is stored as `clampX x`, agreeing with `mergeElement`: the `NaN` coercion is
the one path out of bounds, and the `typeof` guards of the sibling handlers
show the check was intended here too. -/
theorem c6_nan_update (oldX : JsNum) :
    updateElementX oldX (some JsNum.nan) = JsNum.nan ∧
    ¬ (jsLe (JsNum.num 0) (updateElementX oldX (some JsNum.nan)) ∧
        jsLe (updateElementX oldX (some JsNum.nan)) (JsNum.num 1920)) ∧
    ∀ r : ℝ, updateElementX oldX (some (JsNum.num r)) = JsNum.num (clampX r) := by
  refine ⟨rfl, ?_, fun r => rfl⟩
  simp [updateElementX, jsMax, jsMin, jsLe]

/-! ### C10: at most one roster entry per connection id -/

theorem removeFirstUser_map_id (l : List User) (k : String) :
    (removeFirstUser l k).map User.id = (l.map User.id).erase k := by
  induction l with
  | nil => simp [removeFirstUser]
  | cons u rest ih =>
    by_cases h : u.id = k
    · simp [removeFirstUser, h, List.erase_cons]
    · simp [removeFirstUser, h, List.erase_cons, ih]

theorem mapFirstUser_map_id (l : List User) (k : String) (f : User → User)
    (hf : ∀ u, (f u).id = u.id) :
    (mapFirstUser l k f).map User.id = l.map User.id := by
  induction l with
  | nil => simp [mapFirstUser]
  | cons u rest ih =>
    by_cases h : u.id = k
    · simp [mapFirstUser, h, hf]
    · simp [mapFirstUser, h, ih]

theorem applyNewPositions_ids_aux (ps : List (String × ℝ × ℝ))
    (acc : List User × List Emit) :
    ((ps.foldl
      (fun acc p =>
        if (findUser acc.1 p.1).isSome then
          (mapFirstUser acc.1 p.1 (fun u => { u with x := p.2.1, y := p.2.2 }),
           acc.2 ++ [Emit.cursorUpdated p.1 p.2.1 p.2.2])
        else acc)
      acc).1).map User.id = acc.1.map User.id := by
  induction ps generalizing acc with
  | nil => rfl
  | cons p rest ih =>
    simp only [List.foldl_cons]
    rw [ih]
    by_cases hf : (findUser acc.1 p.1).isSome
    · rw [if_pos hf]
      exact mapFirstUser_map_id _ _ _ (fun u => rfl)
    · rw [if_neg hf]

theorem applyNewPositions_ids (users : List User) :
    ((applyNewPositions users (newPositions users)).1).map User.id =
      users.map User.id := by
  unfold applyNewPositions
  exact applyNewPositions_ids_aux _ (users, [])

/-- The per-session C10 invariant: roster connection ids are pairwise
distinct. -/
def InvNodup (st : ServerState) : Prop :=
  ∀ p ∈ st.sessions, (p.2.users.map User.id).Nodup

/-- One event preserves the C10 invariant. The join handler first removes the
existing record with the joining connection id (`findIndex` + `splice`) and
only then appends the new one, so duplicates are never introduced. -/
theorem step_nodup (st : ServerState) (e : Event) (h : InvNodup st) :
    InvNodup (applyEvent st e) := by
  cases e with
  | createSession sid now =>
    simp only [applyEvent, step]
    exact aupsert_forall _ st.sessions sid _ h (fun k' => by simp [mkSession])
  | join sock sid username userType rand now =>
    simp only [applyEvent, step, joinSession]
    cases hses : alookup st.sessions sid with
    | none => exact h
    | some sess =>
      simp only
      have hd := h _ (alookup_mem _ _ _ hses)
      refine aset_forall _ st.sessions sid _ h (fun k' => ?_)
      show ((removeFirstUser sess.users sock ++ [_]).map User.id).Nodup
      rw [List.map_append, removeFirstUser_map_id]
      rw [List.nodup_append]
      refine ⟨hd.erase sock, by simp, ?_⟩
      intro a ha hb
      simp only [List.map_cons, List.map_nil, List.mem_singleton] at hb
      subst hb
      exact absurd ((hd.mem_erase_iff).mp ha).1 (by simp)
  | cursor sock ox oy now =>
    simp only [applyEvent, step, cursorUpdate]
    cases hassoc : alookup st.assoc sock with
    | none => exact h
    | some sid =>
      simp only
      cases hses : alookup st.sessions sid with
      | none => exact h
      | some sess =>
        simp only
        have hd := h _ (alookup_mem _ _ _ hses)
        cases ox with
        | none => exact h
        | some x =>
          cases oy with
          | none => exact h
          | some y =>
            simp only
            cases hfu : findUser sess.users sock with
            | none => exact aset_forall _ st.sessions sid _ h (fun k' => hd)
            | some u =>
              simp only
              split_ifs with hmove
              · refine aset_forall _ st.sessions sid _ h (fun k' => ?_)
                have hids := mapFirstUser_map_id sess.users sock
                  (fun w => { w with
                    x := clampX x, y := clampY y, lastUpdate := now })
                  (fun u => rfl)
                show ((mapFirstUser sess.users sock _).map User.id).Nodup
                rw [hids]
                exact hd
              · exact aset_forall _ st.sessions sid _ h (fun k' => hd)
  | createEl sock d uuid now =>
    simp only [applyEvent, step, createElement]
    cases hassoc : alookup st.assoc sock with
    | none => exact h
    | some sid =>
      simp only
      cases hses : alookup st.sessions sid with
      | none => exact h
      | some sess =>
        simp only
        have hd := h _ (alookup_mem _ _ _ hses)
        rcases d with ⟨dt, dx, dy, dw, dh, dc, dtx⟩
        cases dt with
        | none => exact h
        | some t =>
          cases dx with
          | none => exact h
          | some xv =>
            cases dy with
            | none => exact h
            | some yv =>
              simp only
              split_ifs with ht
              · exact h
              · exact aset_forall _ st.sessions sid _ h (fun k' => hd)
  | updateEl sock d now =>
    simp only [applyEvent, step, updateElement]
    cases hassoc : alookup st.assoc sock with
    | none => exact h
    | some sid =>
      simp only
      cases hses : alookup st.sessions sid with
      | none => exact h
      | some sess =>
        simp only
        have hd := h _ (alookup_mem _ _ _ hses)
        split_ifs with hid
        · cases hfe : findElem sess.elements (d.id.getD "") with
          | none => exact h
          | some e0 =>
            simp only
            exact aset_forall _ st.sessions sid _ h (fun k' => hd)
        · exact h
  | deleteEl sock oid now =>
    simp only [applyEvent, step, deleteElement]
    cases hassoc : alookup st.assoc sock with
    | none => exact h
    | some sid =>
      simp only
      cases hses : alookup st.sessions sid with
      | none => exact h
      | some sess =>
        simp only
        have hd := h _ (alookup_mem _ _ _ hses)
        split_ifs with hid
        · exact aset_forall _ st.sessions sid _ h (fun k' => hd)
        · exact h
  | disconnect sock now =>
    simp only [applyEvent, step, disconnectSocket]
    cases hassoc : alookup st.assoc sock with
    | none => exact h
    | some sid =>
      simp only
      cases hses : alookup st.sessions sid with
      | some sess =>
        simp only
        have hd := h _ (alookup_mem _ _ _ hses)
        refine aset_forall _ st.sessions sid _ h (fun k' => ?_)
        show (((sess.users.filter _).map User.id)).Nodup
        exact ((List.filter_sublist sess.users).map User.id).nodup hd
      | none => exact h
  | tick sid now =>
    simp only [applyEvent, step, stepTick]
    cases hses : alookup st.sessions sid with
    | none => exact h
    | some sess =>
      simp only
      have hd := h _ (alookup_mem _ _ _ hses)
      refine aset_forall _ st.sessions sid _ h (fun k' => ?_)
      show (((tickSession sess now).1.users).map User.id).Nodup
      rw [(tickSession_fields sess now).2.1, applyNewPositions_ids]
      exact hd
  | respawn sid =>
    simp only [applyEvent, step, respawnFires]
    cases hses : alookup st.sessions sid with
    | none => exact h
    | some sess =>
      simp only
      have hd := h _ (alookup_mem _ _ _ hses)
      exact aset_forall _ st.sessions sid _ h (fun k' => hd)
  | reap now =>
    simp only [applyEvent, step, reapSessions]
    intro p hp
    exact h p (List.mem_of_mem_filter hp)

/-- C10: in every reachable state (any trace from process start), every
session's roster contains at most one participant record per connection id —
the `join-session` handler's duplicate-removal (`findIndex` + `splice` before
the push) keeps roster ids pairwise distinct. -/
theorem c10_unique_roster (events : List Event) :
    ∀ p ∈ (reach events).sessions, (p.2.users.map User.id).Nodup := by
  have haux : ∀ (es : List Event) (st : ServerState), InvNodup st →
      InvNodup (es.foldl applyEvent st) := by
    intro es
    induction es with
    | nil => exact fun st hst => hst
    | cons e rest ih =>
      intro st hst
      exact ih _ (step_nodup st e hst)
  exact haux events initState (by intro p hp; simp [initState] at hp)

/-- Witness for C10 at a concrete trace (a single created session, whose
roster has pairwise-distinct ids). -/
theorem c10_unique_roster_witness :
    (((mkSession "s" 0).users.map User.id)).Nodup := by
  have h := c10_unique_roster [Event.createSession "s" 0]
    ("s", mkSession "s" 0)
    (by simp [reach, applyEvent, step, initState, aupsert, alookup,
      List.foldl])
  exact h
